import Mathlib

/-!
Verification development for the client-side script-analysis pipeline of the
NT140 browser extension: a shallow embedding of the rule-based scorer
(`utils/scorer.js`), the tiered hash reputation store (`utils/hash-db.js`),
the dataset updater (`DBUpdater`), and the static feature extractor
(`FeatureExtractor`), together with theorems about the spec-level claims.

Machine integers/floats of the source are modelled as `Nat`, `Int`, `Rat`
(for the decimal arithmetic of the scorer, which is exact at every value the
claims touch) and `Real` (for Shannon entropy).  Stateful code is modelled by
explicit state passing; effects of interest (storage reads, fetches) are
recorded as explicit event traces.
-/

/-! ## Generic string helpers (modelling JS string/regex primitives) -/

/-- Is `pat` a prefix of `s` (character lists)? -/
def isPrefixList : List Char → List Char → Bool
  | [], _ => true
  | _ :: _, [] => false
  | a :: as, b :: bs => a = b && isPrefixList as bs

/-- Does `pat` occur as a contiguous sublist of `s`?  Models JS
`String.prototype.includes`. -/
def hasSubList (pat : List Char) : List Char → Bool
  | [] => pat.isEmpty
  | c :: cs => isPrefixList pat (c :: cs) || hasSubList pat cs

/-- JS `hay.includes(pat)`. -/
def strIncludes (hay pat : String) : Bool :=
  hasSubList pat.data hay.data

/-- ASCII-faithful lowercase map (all strings this code lowercases are
hostnames, hex digests or URL paths). -/
def strToLower (s : String) : String :=
  String.mk (s.data.map Char.toLower)

/-- JS `s.endsWith(t)`. -/
def strEndsWith (s t : String) : Bool :=
  isPrefixList t.data.reverse s.data.reverse

def splitOnCharAux (sep : Char) : List Char → List Char → List String
  | [], acc => [String.mk acc.reverse]
  | c :: cs, acc =>
    if c = sep then String.mk acc.reverse :: splitOnCharAux sep cs []
    else splitOnCharAux sep cs (c :: acc)

/-- JS `s.split(sep)` for a single-character separator. -/
def splitOnChar (sep : Char) (s : String) : List String :=
  splitOnCharAux sep s.data []

/-- Count non-overlapping occurrences of `pat` in `s` scanning left to right,
modelling a global regex over a fixed literal pattern. -/
def countOccursF (pat : String) : ℕ → List Char → ℕ
  | 0, _ => 0
  | _ + 1, [] => 0
  | fuel + 1, c :: cs =>
    if isPrefixList pat.data (c :: cs) then
      1 + countOccursF pat fuel (List.drop (pat.length - 1) cs)
    else
      countOccursF pat fuel cs

def countOccurs (pat : String) (cs : List Char) : ℕ :=
  countOccursF pat cs.length cs

/-- Lowercase hex digit or decimal digit, the class `[a-f0-9]`. -/
def isLowerHexDigit (c : Char) : Bool :=
  c.isDigit || ('a' ≤ c && c ≤ 'f')

/-- The test `/^[a-f0-9]{64}$/.test(s)` from the source. -/
def isHex64 (s : String) : Bool :=
  s.length = 64 && s.data.all isLowerHexDigit

/-- The test `/^\d{1,3}\.\d{1,3}\.\d{1,3}\.\d{1,3}$/.test(s)` used on domains
and IP literals: four dot-separated groups of one to three digits. -/
def isDottedQuad (s : String) : Bool :=
  let parts := splitOnChar '.' s
  parts.length = 4 &&
    parts.all (fun p => 1 ≤ p.length && p.length ≤ 3 && p.data.all Char.isDigit)

/-- Association-list update (models assignment into a JS object used as a map). -/
def upsert {β : Type} (m : List (String × β)) (k : String) (v : β) :
    List (String × β) :=
  match m with
  | [] => [(k, v)]
  | (k', v') :: rest => if k' = k then (k, v) :: rest else (k', v') :: upsert rest k v

/-! ## URL parsing

Modelled platform primitive: the WHATWG `new URL(u)` constructor, restricted
to the `http:`/`https:` absolute forms this codebase feeds it (no userinfo,
no port, no query/fragment splitting beyond path truncation).  `none` models
the constructor throwing. -/

structure UrlParts where
  hostname : String
  pathname : String
deriving DecidableEq, Repr

/-- Case-insensitive literal prefix test. -/
def lowerStartsWith (s : List Char) (pat : String) : Bool :=
  isPrefixList pat.data (s.map Char.toLower)

/-- Length of the URL scheme part (`http://` or `https://`) if present. -/
def schemeLen (s : List Char) : Option ℕ :=
  if lowerStartsWith s "https://" then some 8
  else if lowerStartsWith s "http://" then some 7
  else none

/-- Modelled `new URL`: split an absolute http(s) URL into lowercased
hostname and pathname (defaulting to `/`). -/
def parseURL (u : String) : Option UrlParts :=
  match schemeLen u.data with
  | none => none
  | some k =>
    let rest := u.data.drop k
    let host := rest.takeWhile (fun c => c ≠ '/' && c ≠ '?' && c ≠ '#' && c ≠ ':')
    if host = [] then none
    else
      let after := rest.drop host.length
      let path := after.takeWhile (fun c => c ≠ '?' && c ≠ '#')
      some { hostname := String.mk (host.map Char.toLower)
             pathname := if path = [] then "/" else String.mk path }

/-! ## Scorer data model (`utils/scorer.js`)

The `FeatureVector` consumed by `Scorer.calculateScore`.  Fields that the
source stores as `toFixed(...)` strings and re-reads through `parseFloat`
(`externalPercentage`, `avgEntropy`, `maxEntropy`) are carried as the exact
rationals those fixed-decimal strings denote. -/

structure DangerFeatures where
  eval : ℕ
  Function : ℕ
  setTimeout_string : ℕ
  setInterval_string : ℕ
  document_write : ℕ
  atob : ℕ
  btoa : ℕ
  unescape : ℕ
  decodeURIComponent : ℕ
  innerHTML : ℕ
  outerHTML : ℕ
deriving DecidableEq, Repr

structure ObfFeatures where
  hexStrings : ℕ
  unicodeEscapes : ℕ
  base64Strings : ℕ
  longIdentifiers : ℕ
  stringConcatenation : ℕ
  charCodeUsage : ℕ
  score : ℕ
  isObfuscated : Bool
deriving DecidableEq, Repr

structure UrlFeatures where
  totalUrls : ℕ
  uniqueDomains : ℕ
  externalUrls : ℕ
  externalPercentage : ℚ
  domains : List String
deriving DecidableEq, Repr

structure StringFeatures where
  totalStrings : ℕ
  avgEntropy : ℚ
  maxEntropy : ℚ
  highEntropyStrings : ℕ
deriving DecidableEq, Repr

structure PatternFeatures where
  dynamicPropertyAccess : ℕ
  importScripts : ℕ
  webSocket : ℕ
  xhr : ℕ
  fetch : ℕ
  postMessage : ℕ
  localStorage : ℕ
  cookie : ℕ
deriving DecidableEq, Repr

structure ComplexityFeatures where
  loops : ℕ
  conditionals : ℕ
  functions : ℕ
  maxNestingDepth : ℕ
  cyclomaticComplexity : ℕ
deriving DecidableEq, Repr

/-- Field `networkMatches` as consumed by the scorer: the blacklisted entries are
carried as their display strings (`ipText` in `generateReasons`). -/
structure NetworkMatches where
  ips : List String
  blacklistedIps : List String
deriving DecidableEq, Repr

structure Features where
  url : String
  codeSize : ℕ
  dangerousFunctions : DangerFeatures
  urlAnalysis : UrlFeatures
  obfuscation : ObfFeatures
  complexity : ComplexityFeatures
  stringAnalysis : StringFeatures
  suspiciousPatterns : PatternFeatures
  networkMatches : NetworkMatches
deriving DecidableEq, Repr

/-- The relevant part of a `HashDB.checkHash` result as passed to
`calculateScore` (`hashMatch` parameter). -/
structure HashMatchInfo where
  found : Bool
  source : String
deriving DecidableEq, Repr

structure ScoreBreakdown where
  trustedSource : Bool
  hashMatch : ℕ
  dangerousFunctions : ℤ
  obfuscation : ℤ
  urls : ℤ
  entropy : ℤ
  patterns : ℤ
  complexity : ℤ
  domains : ℤ
  unknownDomain : ℕ
  ipMatches : ℕ
deriving DecidableEq, Repr

structure RiskScore where
  score : ℤ
  riskLevel : String
  action : String
  breakdown : ScoreBreakdown
  isTrusted : Bool
  reasons : List String
deriving DecidableEq, Repr

namespace Scorer

/-- JS `Math.round` on the (non-negative) rationals the scorer produces. -/
def jsRound (q : ℚ) : ℤ := ⌊q + 1/2⌋

def trustedDomains : List String :=
  [ "cdnjs.cloudflare.com", "unpkg.com", "jsdelivr.net", "cdn.jsdelivr.net",
    "ajax.googleapis.com", "code.jquery.com", "stackpath.bootstrapcdn.com",
    "maxcdn.bootstrapcdn.com", "use.fontawesome.com", "fonts.googleapis.com",
    "cdn.bootcss.com", "cdn.staticfile.org", "lib.baomitu.com",
    "polyfill.io", "cdnjs.com", "unpkg.org" ]

def suspiciousDomains : List String :=
  [ "bit.ly", "tinyurl.com", "goo.gl", "t.co",
    ".tk", ".ml", ".ga", ".cf", ".gq",
    "pastebin.com", "hastebin.com" ]

def ipWeight : ℕ := 40

/-- Source function `Scorer.isTrustedSource`. -/
def isTrustedSource (url : String) : Bool :=
  match parseURL url with
  | none => false
  | some u =>
    let hostname := strToLower u.hostname
    if trustedDomains.any (fun t => hostname = t || strEndsWith hostname ("." ++ t)) then
      true
    else
      let path := strToLower u.pathname
      strIncludes path "/lib/" || strIncludes path "/vendor/" ||
        strIncludes path "/node_modules/" || strIncludes path "/dist/"

/-- Source function `Scorer.isKnownDomain`. -/
def isKnownDomain (url : String) : Bool :=
  match parseURL url with
  | none => false
  | some u =>
    let hostname := strToLower u.hostname
    let knownTLDs := [".com", ".org", ".net", ".edu", ".gov", ".io", ".co"]
    let hasKnownTLD := knownTLDs.any (fun t => strEndsWith hostname t)
    let domainParts := splitOnChar '.' hostname
    let mainDomain :=
      if domainParts.length < 2 then "" else domainParts.getD (domainParts.length - 2) ""
    hasKnownTLD && mainDomain.length ≤ 20

/-- Source function `Scorer.scoreDangerousFunctions` (all-integer arithmetic). -/
def scoreDangerousFunctions (d : DangerFeatures) : ℕ :=
  let s :=
    min (d.eval * 10) 30 +
    min (d.Function * 10) 30 +
    min ((d.setTimeout_string + d.setInterval_string) * 8) 20 +
    min (d.document_write * 3) 10 +
    min ((d.atob + d.btoa) * 3) 15 +
    min ((d.unescape + d.decodeURIComponent) * 2) 10 +
    min ((d.innerHTML + d.outerHTML) * 2) 10
  min s 30

/-- Source function `Scorer.scoreObfuscation`. -/
def scoreObfuscation (o : ObfFeatures) : ℚ :=
  let s : ℚ := (o.score : ℚ) * 0.20 +
    (if o.hexStrings > 50 then 8 else 0) +
    (if o.unicodeEscapes > 50 then 8 else 0) +
    (if o.charCodeUsage > 10 then 8 else 0)
  min s 20

/-- Source function `Scorer.scoreURLs`. -/
def scoreURLs (u : UrlFeatures) : ℕ :=
  let extPercent := u.externalPercentage
  let s :=
    (if extPercent > 80 then 10 else if extPercent > 50 then 6
     else if extPercent > 30 then 3 else 0) +
    (if u.totalUrls > 20 then 3 else 0) +
    (if u.totalUrls > 50 then 6 else 0)
  min s 10

/-- Source function `Scorer.scoreEntropy`. -/
def scoreEntropy (sa : StringFeatures) : ℕ :=
  let s :=
    (if sa.avgEntropy > 4.5 then 10 else if sa.avgEntropy > 4.0 then 6
     else if sa.avgEntropy > 3.5 then 3 else 0) +
    (if sa.maxEntropy > 5.0 then 6 else 0) +
    (if sa.highEntropyStrings > 10 then 6
     else if sa.highEntropyStrings > 5 then 3 else 0)
  min s 15

/-- Source function `Scorer.scoreSuspiciousPatterns`. -/
def scoreSuspiciousPatterns (p : PatternFeatures) : ℕ :=
  let networkCalls := p.xhr + p.fetch
  let s :=
    (if p.dynamicPropertyAccess > 10 then 12
     else if p.dynamicPropertyAccess > 5 then 8
     else if p.dynamicPropertyAccess > 0 then 4 else 0) +
    min (p.importScripts * 8) 16 +
    (if p.webSocket > 0 then 8 else 0) +
    (if networkCalls > 10 then 8 else if networkCalls > 5 then 4 else 0) +
    (if p.cookie > 3 then 8 else if p.cookie > 0 then 4 else 0)
  min s 20

/-- Source function `Scorer.scoreComplexity`. -/
def scoreComplexity (c : ComplexityFeatures) : ℕ :=
  let s :=
    (if c.cyclomaticComplexity > 100 then 10
     else if c.cyclomaticComplexity > 50 then 5 else 0) +
    (if c.maxNestingDepth > 10 then 5 else 0)
  min s 10

/-- Source function `Scorer.scoreDomains`. -/
def scoreDomains (u : UrlFeatures) : ℕ :=
  let s := (u.domains.map (fun d =>
    (if suspiciousDomains.any (fun sd => strIncludes d sd) then 12 else 0) +
    (if isDottedQuad d then 8 else 0) +
    (if d.length > 40 then 4 else 0))).sum
  min s 20

/-- Reason strings appended by `generateReasons`, in the fixed source order.
The numeric renderings use Lean's `toString`; only their determinism and
presence matter to the claims. -/
def generateReasons (features : Features) (breakdown : ScoreBreakdown)
    (hashMatch : Option HashMatchInfo) : List String :=
  (if breakdown.hashMatch ≠ 0 then
    ["⚠️ Hash trùng với database mã độc (" ++
      (match hashMatch with
       | some h => if h.source = "" then "Tempico" else h.source
       | none => "Tempico") ++ ")"]
   else []) ++
  features.networkMatches.blacklistedIps.map
    (fun ip => "⚠️ Kết nối đến IP danh sách đen: " ++ ip) ++
  (if breakdown.trustedSource then ["✓ Nguồn tin cậy (CDN/thư viện phổ biến)"] else []) ++
  (if breakdown.unknownDomain > 0 then ["Domain không rõ nguồn gốc"] else []) ++
  (if breakdown.dangerousFunctions > 15 then
    (if features.dangerousFunctions.eval > 0 then
      ["Sử dụng eval() " ++ toString features.dangerousFunctions.eval ++ " lần"] else []) ++
    (if features.dangerousFunctions.Function > 0 then
      ["Sử dụng Function constructor " ++ toString features.dangerousFunctions.Function ++ " lần"] else []) ++
    (if features.dangerousFunctions.setTimeout_string > 0 then
      ["setTimeout/setInterval với string"] else [])
   else []) ++
  (if breakdown.obfuscation > 10 then
    (if features.obfuscation.isObfuscated then ["Code bị obfuscate"] else []) ++
    (if features.obfuscation.hexStrings > 20 then
      ["Nhiều hex strings (" ++ toString features.obfuscation.hexStrings ++ ")"] else []) ++
    (if features.obfuscation.base64Strings > 5 then
      ["Nhiều base64 strings (" ++ toString features.obfuscation.base64Strings ++ ")"] else [])
   else []) ++
  (if breakdown.urls > 6 then
    (if features.urlAnalysis.externalPercentage > 50 then
      [toString features.urlAnalysis.externalPercentage ++ "% URLs external"] else [])
   else []) ++
  (if breakdown.entropy > 8 then
    (if features.stringAnalysis.highEntropyStrings > 5 then
      [toString features.stringAnalysis.highEntropyStrings ++ " strings có entropy cao"] else [])
   else []) ++
  (if breakdown.patterns > 8 then
    (if features.suspiciousPatterns.dynamicPropertyAccess > 5 then
      ["Dynamic property access (evasion)"] else []) ++
    (if features.suspiciousPatterns.webSocket > 0 then ["Sử dụng WebSocket"] else []) ++
    (if features.suspiciousPatterns.cookie > 0 then ["Truy cập cookies"] else [])
   else []) ++
  (if breakdown.domains > 8 then ["Kết nối đến domains đáng ngờ"] else [])

/-- Source function `Scorer.calculateScore`: the multi-factor risk score.
The `action`/`riskLevel` comparisons happen on the capped, un-rounded total
exactly as in the source; `score` is the rounded value. -/
def calculateScore (features : Features) (hashMatch : Option HashMatchInfo) :
    RiskScore :=
  let isTrusted := isTrustedSource features.url
  let trustMultiplier : ℚ := if isTrusted then 0.3 else 1.0
  let hashScore : ℕ :=
    match hashMatch with
    | some h => if h.found then 40 else 0
    | none => 0
  let dangerScore : ℚ := (scoreDangerousFunctions features.dangerousFunctions : ℚ) * trustMultiplier
  let obfuscationScore : ℚ := scoreObfuscation features.obfuscation * trustMultiplier
  let urlScore : ℚ := (scoreURLs features.urlAnalysis : ℚ) * trustMultiplier
  let entropyScore : ℚ := (scoreEntropy features.stringAnalysis : ℚ) * trustMultiplier
  let patternScore : ℚ := (scoreSuspiciousPatterns features.suspiciousPatterns : ℚ) * trustMultiplier
  let complexityScore : ℚ := (scoreComplexity features.complexity : ℚ) * trustMultiplier
  let domainScore : ℚ := (scoreDomains features.urlAnalysis : ℚ) * trustMultiplier
  let unknownDomainScore : ℕ :=
    if !isTrusted && !isKnownDomain features.url then 10 else 0
  let ipScore : ℕ :=
    if features.networkMatches.blacklistedIps ≠ [] then ipWeight else 0
  let total : ℚ := (hashScore : ℚ) + dangerScore + obfuscationScore + urlScore +
    entropyScore + patternScore + complexityScore + domainScore +
    (unknownDomainScore : ℚ) + (ipScore : ℚ)
  let capped : ℚ := min total 100
  let breakdown : ScoreBreakdown :=
    { trustedSource := isTrusted
      hashMatch := hashScore
      dangerousFunctions := jsRound dangerScore
      obfuscation := jsRound obfuscationScore
      urls := jsRound urlScore
      entropy := jsRound entropyScore
      patterns := jsRound patternScore
      complexity := jsRound complexityScore
      domains := jsRound domainScore
      unknownDomain := unknownDomainScore
      ipMatches := ipScore }
  { score := jsRound capped
    riskLevel := if capped ≥ 70 then "high" else if capped ≥ 40 then "medium" else "low"
    action := if capped ≥ 70 then "block" else if capped ≥ 40 then "suspect" else "allow"
    breakdown := breakdown
    isTrusted := isTrusted
    reasons := generateReasons features breakdown hashMatch }

/-! Named pieces of the score used to state the claims about the trust
multiplier and the reputation/IP split. -/

/-- The trust discount applied to all heuristic categories. -/
def trustMultiplierOf (f : Features) : ℚ :=
  if isTrustedSource f.url then 0.3 else 1.0

/-- Sum of the seven heuristic category scores before the trust multiplier. -/
def rawHeuristic (f : Features) : ℚ :=
  (scoreDangerousFunctions f.dangerousFunctions : ℚ) +
  scoreObfuscation f.obfuscation +
  (scoreURLs f.urlAnalysis : ℚ) +
  (scoreEntropy f.stringAnalysis : ℚ) +
  (scoreSuspiciousPatterns f.suspiciousPatterns : ℚ) +
  (scoreComplexity f.complexity : ℚ) +
  (scoreDomains f.urlAnalysis : ℚ)

/-- The unknown-domain penalty (category 9 of `calculateScore`). -/
def unknownDomainScoreOf (f : Features) : ℕ :=
  if !isTrustedSource f.url && !isKnownDomain f.url then 10 else 0

/-- Hash-reputation contribution (category 1 of `calculateScore`). -/
def hashScoreOf (hashMatch : Option HashMatchInfo) : ℕ :=
  match hashMatch with
  | some h => if h.found then 40 else 0
  | none => 0

/-- IP-blacklist contribution (category 10 of `calculateScore`). -/
def ipScoreOf (f : Features) : ℕ :=
  if f.networkMatches.blacklistedIps ≠ [] then ipWeight else 0

/-- The non-reputation, non-IP portion of the un-capped total: the seven
multiplied heuristic categories plus the unknown-domain penalty. -/
def nonRepNonIpPortion (f : Features) : ℚ :=
  rawHeuristic f * trustMultiplierOf f + (unknownDomainScoreOf f : ℚ)

/-- The un-capped total of `calculateScore`, decomposed by provenance. -/
def totalScoreQ (f : Features) (hashMatch : Option HashMatchInfo) : ℚ :=
  (hashScoreOf hashMatch : ℚ) + nonRepNonIpPortion f + (ipScoreOf f : ℚ)

/-- Glue: `calculateScore` computes its score and action from `totalScoreQ`. -/
theorem calculateScore_total (f : Features) (hm : Option HashMatchInfo) :
    (calculateScore f hm).score = jsRound (min (totalScoreQ f hm) 100) ∧
    (calculateScore f hm).action =
      (if min (totalScoreQ f hm) 100 ≥ 70 then "block"
       else if min (totalScoreQ f hm) 100 ≥ 40 then "suspect" else "allow") := by
  unfold calculateScore totalScoreQ nonRepNonIpPortion rawHeuristic
    trustMultiplierOf unknownDomainScoreOf hashScoreOf ipScoreOf
  refine ⟨?_, ?_⟩
  · ring_nf
  · ring_nf

end Scorer

/-! ## Claims about the Scorer -/

/-- Benign zero baseline of the feature vector: every count zero, no URLs,
no IP matches (`cyclomaticComplexity` is 1, the extractor's value for empty
code: `1 + conditionals + loops`). -/
def baselineFeatures (u : String) : Features :=
  { url := u
    codeSize := 0
    dangerousFunctions := ⟨0, 0, 0, 0, 0, 0, 0, 0, 0, 0, 0⟩
    urlAnalysis := ⟨0, 0, 0, 0, []⟩
    obfuscation := ⟨0, 0, 0, 0, 0, 0, 0, false⟩
    complexity := ⟨0, 0, 0, 0, 1⟩
    stringAnalysis := ⟨0, 0, 0, 0⟩
    suspiciousPatterns := ⟨0, 0, 0, 0, 0, 0, 0, 0⟩
    networkMatches := ⟨[], []⟩ }

lemma scoreObfuscation_nonneg (o : ObfFeatures) : 0 ≤ Scorer.scoreObfuscation o := by
  unfold Scorer.scoreObfuscation
  refine le_min ?_ (by norm_num)
  apply add_nonneg
  apply add_nonneg
  apply add_nonneg
  · positivity
  all_goals split <;> norm_num

lemma rawHeuristic_nonneg (f : Features) : 0 ≤ Scorer.rawHeuristic f := by
  unfold Scorer.rawHeuristic
  have h := scoreObfuscation_nonneg f.obfuscation
  repeat' apply add_nonneg
  all_goals first | exact h | positivity

lemma trustMultiplierOf_pos (f : Features) : 0 < Scorer.trustMultiplierOf f := by
  unfold Scorer.trustMultiplierOf
  split <;> norm_num

lemma nonRepNonIpPortion_nonneg (f : Features) : 0 ≤ Scorer.nonRepNonIpPortion f := by
  unfold Scorer.nonRepNonIpPortion
  have h1 := rawHeuristic_nonneg f
  have h2 := trustMultiplierOf_pos f
  positivity

lemma totalScoreQ_nonneg (f : Features) (hm : Option HashMatchInfo) :
    0 ≤ Scorer.totalScoreQ f hm := by
  unfold Scorer.totalScoreQ
  have h := nonRepNonIpPortion_nonneg f
  positivity

lemma jsRound_nonneg {q : ℚ} (h : 0 ≤ q) : 0 ≤ Scorer.jsRound q := by
  unfold Scorer.jsRound
  exact Int.floor_nonneg.mpr (by linarith)

lemma jsRound_le_100 {q : ℚ} (h : q ≤ 100) : Scorer.jsRound q ≤ 100 := by
  unfold Scorer.jsRound
  have h2 : ⌊q + 1/2⌋ < 101 := Int.floor_lt.mpr (by push_cast; linarith)
  omega

lemma jsRound_mono {a b : ℚ} (h : a ≤ b) : Scorer.jsRound a ≤ Scorer.jsRound b :=
  Int.floor_le_floor (by linarith)

/-- C4: for every feature vector `f` and reputation-lookup result `hm`,
`Scorer.calculateScore f hm` is deterministic (identical inputs give the
identical `RiskScore`, reasons included) and the numeric score lies in
`[0, 100]`. -/
theorem claim_C4_score_deterministic_bounded (f : Features) (hm : Option HashMatchInfo) :
    Scorer.calculateScore f hm = Scorer.calculateScore f hm ∧
    0 ≤ (Scorer.calculateScore f hm).score ∧
    (Scorer.calculateScore f hm).score ≤ 100 := by
  refine ⟨rfl, ?_, ?_⟩
  · rw [(Scorer.calculateScore_total f hm).1]
    exact jsRound_nonneg (le_min (totalScoreQ_nonneg f hm) (by norm_num))
  · rw [(Scorer.calculateScore_total f hm).1]
    exact jsRound_le_100 (min_le_right _ _)

/-- C5: with every heuristic feature at the zero/benign baseline, a positive
reputation match contributes exactly 40 points and the resulting action is
never `block` (the score stays below 70), whatever the origin URL. -/
theorem claim_C5_reputation_only_no_block (u : String) :
    (Scorer.calculateScore (baselineFeatures u) (some ⟨true, "local"⟩)).breakdown.hashMatch = 40 ∧
    (Scorer.calculateScore (baselineFeatures u) (some ⟨true, "local"⟩)).action ≠ "block" ∧
    (Scorer.calculateScore (baselineFeatures u) (some ⟨true, "local"⟩)).score < 70 := by
  by_cases hT : Scorer.isTrustedSource u <;> by_cases hK : Scorer.isKnownDomain u <;>
    · simp only [Scorer.calculateScore, baselineFeatures, hT, hK]
      norm_num [Scorer.scoreDangerousFunctions, Scorer.scoreObfuscation,
        Scorer.scoreURLs, Scorer.scoreEntropy, Scorer.scoreSuspiciousPatterns,
        Scorer.scoreComplexity, Scorer.scoreDomains, Scorer.ipWeight,
        Scorer.jsRound, Int.floor_eq_iff]
      decide

lemma rawHeuristic_url (f : Features) (u : String) :
    Scorer.rawHeuristic { f with url := u } = Scorer.rawHeuristic f := rfl

/-- C6: the fixed 0.3 trust multiplier governs all heuristic (non-reputation,
non-IP) categories exactly when the origin is trusted: with the feature
vector held fixed, a trusted origin makes the non-reputation, non-IP portion
equal `0.3 ×` the raw heuristic sum, it never exceeds the untrusted portion,
and it is strictly smaller whenever the heuristic contributions are nonzero. -/
theorem claim_C6_trust_discount (f : Features) (uT uU : String)
    (hT : Scorer.isTrustedSource uT = true)
    (hU : Scorer.isTrustedSource uU = false) :
    Scorer.nonRepNonIpPortion { f with url := uT } =
      0.3 * Scorer.rawHeuristic f ∧
    Scorer.nonRepNonIpPortion { f with url := uU } =
      Scorer.rawHeuristic f +
        (Scorer.unknownDomainScoreOf { f with url := uU } : ℚ) ∧
    Scorer.nonRepNonIpPortion { f with url := uT } ≤
      Scorer.nonRepNonIpPortion { f with url := uU } ∧
    (Scorer.rawHeuristic f ≠ 0 →
      Scorer.nonRepNonIpPortion { f with url := uT } <
        Scorer.nonRepNonIpPortion { f with url := uU }) := by
  have hraw := rawHeuristic_nonneg f
  have hTeq : Scorer.nonRepNonIpPortion { f with url := uT } =
      0.3 * Scorer.rawHeuristic f := by
    unfold Scorer.nonRepNonIpPortion Scorer.trustMultiplierOf Scorer.unknownDomainScoreOf
    rw [rawHeuristic_url]
    simp only [hT]
    norm_num
    ring
  have hUeq : Scorer.nonRepNonIpPortion { f with url := uU } =
      Scorer.rawHeuristic f +
        (Scorer.unknownDomainScoreOf { f with url := uU } : ℚ) := by
    unfold Scorer.nonRepNonIpPortion Scorer.trustMultiplierOf
    rw [rawHeuristic_url]
    simp only [hU]
    norm_num
  have hun : (0 : ℚ) ≤ (Scorer.unknownDomainScoreOf { f with url := uU } : ℚ) := by
    positivity
  refine ⟨hTeq, hUeq, ?_, ?_⟩
  · rw [hTeq, hUeq]; nlinarith
  · intro hne
    have hpos : 0 < Scorer.rawHeuristic f := lt_of_le_of_ne hraw (Ne.symm hne)
    rw [hTeq, hUeq]; nlinarith

/-- Witness for C6 at a concrete trusted/untrusted URL pair and a vector with
one `eval` call (raw heuristic 10). -/
theorem claim_C6_trust_discount_witness :
    Scorer.isTrustedSource "https://unpkg.com/lodash.js" = true ∧
    Scorer.isTrustedSource "http://example.com/a.js" = false ∧
    Scorer.rawHeuristic
      { baselineFeatures "x" with dangerousFunctions := ⟨1, 0, 0, 0, 0, 0, 0, 0, 0, 0, 0⟩ } ≠ 0 ∧
    Scorer.nonRepNonIpPortion
      { baselineFeatures "x" with
          dangerousFunctions := ⟨1, 0, 0, 0, 0, 0, 0, 0, 0, 0, 0⟩
          url := "https://unpkg.com/lodash.js" } <
      Scorer.nonRepNonIpPortion
        { baselineFeatures "x" with
            dangerousFunctions := ⟨1, 0, 0, 0, 0, 0, 0, 0, 0, 0, 0⟩
            url := "http://example.com/a.js" } := by
  have hne : Scorer.rawHeuristic
      { baselineFeatures "x" with
          dangerousFunctions := ⟨1, 0, 0, 0, 0, 0, 0, 0, 0, 0, 0⟩ } ≠ 0 := by
    simp only [Scorer.rawHeuristic, baselineFeatures, Scorer.scoreDangerousFunctions,
      Scorer.scoreObfuscation, Scorer.scoreURLs, Scorer.scoreEntropy,
      Scorer.scoreSuspiciousPatterns, Scorer.scoreComplexity, Scorer.scoreDomains]
    norm_num
  refine ⟨by decide, by decide, hne, ?_⟩
  exact (claim_C6_trust_discount
    { baselineFeatures "x" with dangerousFunctions := ⟨1, 0, 0, 0, 0, 0, 0, 0, 0, 0, 0⟩ }
    "https://unpkg.com/lodash.js" "http://example.com/a.js"
    (by decide) (by decide)).2.2.2 hne

/-- Selector for the eleven dangerous-call count fields. -/
inductive DangerField where
  | evalF | functionF | setTimeoutStringF | setIntervalStringF | documentWriteF
  | atobF | btoaF | unescapeF | decodeURIComponentF | innerHTMLF | outerHTMLF
deriving DecidableEq, Repr

/-- Set one dangerous-call count field. -/
def setDangerField (fld : DangerField) (v : ℕ) (d : DangerFeatures) : DangerFeatures :=
  match fld with
  | .evalF => { d with eval := v }
  | .functionF => { d with Function := v }
  | .setTimeoutStringF => { d with setTimeout_string := v }
  | .setIntervalStringF => { d with setInterval_string := v }
  | .documentWriteF => { d with document_write := v }
  | .atobF => { d with atob := v }
  | .btoaF => { d with btoa := v }
  | .unescapeF => { d with unescape := v }
  | .decodeURIComponentF => { d with decodeURIComponent := v }
  | .innerHTMLF => { d with innerHTML := v }
  | .outerHTMLF => { d with outerHTML := v }

/-- Replace one dangerous-call count inside a full feature vector, holding
every other input fixed. -/
def updateDangerCount (fld : DangerField) (v : ℕ) (f : Features) : Features :=
  { f with dangerousFunctions := setDangerField fld v f.dangerousFunctions }

lemma scoreDangerousFunctions_le (d d' : DangerFeatures)
    (h1 : d.eval ≤ d'.eval) (h2 : d.Function ≤ d'.Function)
    (h3 : d.setTimeout_string ≤ d'.setTimeout_string)
    (h4 : d.setInterval_string ≤ d'.setInterval_string)
    (h5 : d.document_write ≤ d'.document_write)
    (h6 : d.atob ≤ d'.atob) (h7 : d.btoa ≤ d'.btoa)
    (h8 : d.unescape ≤ d'.unescape)
    (h9 : d.decodeURIComponent ≤ d'.decodeURIComponent)
    (h10 : d.innerHTML ≤ d'.innerHTML) (h11 : d.outerHTML ≤ d'.outerHTML) :
    Scorer.scoreDangerousFunctions d ≤ Scorer.scoreDangerousFunctions d' := by
  simp only [Scorer.scoreDangerousFunctions]
  gcongr

lemma scoreDangerousFunctions_mono (fld : DangerField) {v v' : ℕ} (h : v ≤ v')
    (d : DangerFeatures) :
    Scorer.scoreDangerousFunctions (setDangerField fld v d) ≤
      Scorer.scoreDangerousFunctions (setDangerField fld v' d) := by
  apply scoreDangerousFunctions_le <;> (cases fld <;> simp only [setDangerField] <;> omega)

/-- C7: increasing any single dangerous-call count, holding every other
input fixed, never decreases the numeric score of `calculateScore`. -/
theorem claim_C7_danger_count_monotone (fld : DangerField) (v v' : ℕ) (h : v ≤ v')
    (f : Features) (hm : Option HashMatchInfo) :
    (Scorer.calculateScore (updateDangerCount fld v f) hm).score ≤
      (Scorer.calculateScore (updateDangerCount fld v' f) hm).score := by
  rw [(Scorer.calculateScore_total _ hm).1, (Scorer.calculateScore_total _ hm).1]
  apply jsRound_mono
  apply min_le_min _ le_rfl
  unfold Scorer.totalScoreQ Scorer.nonRepNonIpPortion
  have hmult : Scorer.trustMultiplierOf (updateDangerCount fld v f) =
      Scorer.trustMultiplierOf (updateDangerCount fld v' f) := rfl
  have hmnn : 0 ≤ Scorer.trustMultiplierOf (updateDangerCount fld v' f) :=
    le_of_lt (trustMultiplierOf_pos _)
  have hraw : Scorer.rawHeuristic (updateDangerCount fld v f) ≤
      Scorer.rawHeuristic (updateDangerCount fld v' f) := by
    have hd := scoreDangerousFunctions_mono fld h f.dangerousFunctions
    have hdq : ((Scorer.scoreDangerousFunctions (setDangerField fld v f.dangerousFunctions) : ℕ) : ℚ) ≤
        ((Scorer.scoreDangerousFunctions (setDangerField fld v' f.dangerousFunctions) : ℕ) : ℚ) := by
      exact_mod_cast hd
    show (Scorer.scoreDangerousFunctions (setDangerField fld v f.dangerousFunctions) : ℚ) +
        Scorer.scoreObfuscation f.obfuscation + (Scorer.scoreURLs f.urlAnalysis : ℚ) +
        (Scorer.scoreEntropy f.stringAnalysis : ℚ) +
        (Scorer.scoreSuspiciousPatterns f.suspiciousPatterns : ℚ) +
        (Scorer.scoreComplexity f.complexity : ℚ) +
        (Scorer.scoreDomains f.urlAnalysis : ℚ) ≤
      (Scorer.scoreDangerousFunctions (setDangerField fld v' f.dangerousFunctions) : ℚ) +
        Scorer.scoreObfuscation f.obfuscation + (Scorer.scoreURLs f.urlAnalysis : ℚ) +
        (Scorer.scoreEntropy f.stringAnalysis : ℚ) +
        (Scorer.scoreSuspiciousPatterns f.suspiciousPatterns : ℚ) +
        (Scorer.scoreComplexity f.complexity : ℚ) +
        (Scorer.scoreDomains f.urlAnalysis : ℚ)
    linarith
  rw [hmult]
  have hun : Scorer.unknownDomainScoreOf (updateDangerCount fld v f) =
      Scorer.unknownDomainScoreOf (updateDangerCount fld v' f) := rfl
  have hip : Scorer.ipScoreOf (updateDangerCount fld v f) =
      Scorer.ipScoreOf (updateDangerCount fld v' f) := rfl
  have hhash : (Scorer.hashScoreOf hm : ℚ) = (Scorer.hashScoreOf hm : ℚ) := rfl
  rw [hun, hip]
  have := mul_le_mul_of_nonneg_right hraw hmnn
  linarith

/-- Witness for C7: bumping the `eval` count from 0 to 1 on the baseline
vector does not decrease the score. -/
theorem claim_C7_danger_count_monotone_witness :
    (0 : ℕ) ≤ 1 ∧
    (Scorer.calculateScore (updateDangerCount .evalF 0 (baselineFeatures "http://example.com/a.js")) none).score ≤
      (Scorer.calculateScore (updateDangerCount .evalF 1 (baselineFeatures "http://example.com/a.js")) none).score :=
  ⟨by decide, claim_C7_danger_count_monotone .evalF 0 1 (by decide)
    (baselineFeatures "http://example.com/a.js") none⟩

/-! ## Hash reputation store (`utils/hash-db.js`)

Stateful code modelled by explicit state passing.  The storage reads and
packaged-shard fetches performed by `loadShard` are recorded as an explicit
event trace.  The `shardPromises` map only coalesces loads that are in
flight concurrently; in this sequential model every `loadShard` call starts
and finishes with that map empty, so it is not part of the state. -/

/-- JS `s.trim()`. -/
def trimStr (s : String) : String :=
  String.mk (((s.data.dropWhile Char.isWhitespace).reverse.dropWhile
    Char.isWhitespace).reverse)

def splitRNLinesAux : List Char → List Char → List String
  | [], acc => [String.mk acc.reverse]
  | '\r' :: '\n' :: cs, acc => String.mk acc.reverse :: splitRNLinesAux cs []
  | '\n' :: cs, acc => String.mk acc.reverse :: splitRNLinesAux cs []
  | c :: cs, acc => splitRNLinesAux cs (c :: acc)

/-- JS `text.split(/\r?\n/)`. -/
def splitRNLines (text : String) : List String :=
  splitRNLinesAux text.data []

namespace HashDB

/-- One caller-supplied custom entry (`{hash, description}`). -/
structure CustomHash where
  hash : String
  description : String
deriving DecidableEq, Repr

/-- Environment: the packaged shard files reachable through
`browser.runtime.getURL` + `fetch` (`none` models a non-ok response). -/
structure HashEnv where
  pkgShard : String → Option String

/-- Mutable fields of the `HashDB` object plus the `storage.local` shard
entries it reads (`sha256_shard_<pfx>`, keyed here by the two-char `pfx`). -/
structure HashState where
  customHashes : List CustomHash
  localHashes : List String
  shardCache : List (String × List String)
  shardStorage : List (String × String)
deriving DecidableEq, Repr

/-- Observable effects of a lookup. -/
inductive HashEvent where
  | storageRead (key : String)
  | packagedFetch (pfx : String)
deriving DecidableEq, Repr

/-- Line-oriented digest parsing shared by the shard/local loaders: skip
empty lines, trim + lowercase, keep 64-char lowercase hex. -/
def parseHashLines (text : String) : List String :=
  (splitRNLines text).filterMap (fun l =>
    if l = "" then none
    else
      let t := strToLower (trimStr l)
      if isHex64 t then some t else none)

/-- Source function `HashDB.loadShard`: on-demand shard load for a two-char
digest `pfx`.  Reads the `DBUpdater`-cached shard from storage first, then
tries the packaged shard file; an empty result is cached in `shardCache`.
Note the function never reads `shardCache`. -/
def loadShard (env : HashEnv) (st : HashState) (pfx : String) :
    List String × HashState × List HashEvent :=
  if pfx = "" then ([], st, [])
  else
    let p := strToLower pfx
    let key := "sha256_shard_" ++ p
    match st.shardStorage.lookup p with
    | some text =>
      let s := parseHashLines text
      (s, { st with shardCache := upsert st.shardCache p s }, [.storageRead key])
    | none =>
      match env.pkgShard p with
      | some t =>
        let s := parseHashLines t
        (s, { st with shardCache := upsert st.shardCache p s },
          [.storageRead key, .packagedFetch p])
      | none =>
        ([], { st with shardCache := upsert st.shardCache p [] },
          [.storageRead key, .packagedFetch p])

/-- Outcome record of `HashDB.checkHash` (union of the fields the source
returns on its branches; absent fields are empty/zero). -/
structure HashResult where
  found : Bool
  type : String
  source : String
  description : String
  severity : ℕ
  riskLevel : String
  message : String
deriving DecidableEq, Repr

/-- Source function `HashDB.checkHash`: merged local set first, then the
on-demand shard for the first two hex characters, then the caller-supplied
custom entries. -/
def checkHash (env : HashEnv) (st : HashState) (sha : String) :
    HashResult × HashState × List HashEvent :=
  if sha = "" then
    ({ found := false, type := "", source := "none", description := "",
       severity := 0, riskLevel := "", message := "" }, st, [])
  else
    let clean := trimStr (strToLower sha)
    if st.localHashes.contains clean then
      ({ found := true, type := "SHA256", source := "local",
         description := "Matched local SHA256 DB", severity := 10,
         riskLevel := "high", message := "" }, st, [])
    else
      let pfx := String.mk (clean.data.take 2)
      let res := loadShard env st pfx
      if res.1.contains clean then
        ({ found := true, type := "SHA256", source := "shard:" ++ pfx,
           description := "Matched packaged shard " ++ pfx, severity := 10,
           riskLevel := "high", message := "" }, res.2.1, res.2.2)
      else
        match st.customHashes.find? (fun c => c.hash = clean) with
        | some c =>
          ({ found := true, type := "SHA256", source := "custom",
             description := c.description, severity := 10,
             riskLevel := "high", message := "" }, res.2.1, res.2.2)
        | none =>
          ({ found := false, type := "", source := "none", description := "",
             severity := 0, riskLevel := "", message := "Hash not found" },
            res.2.1, res.2.2)

/-- Result component of a lookup. -/
def checkHashResult (env : HashEnv) (st : HashState) (sha : String) : HashResult :=
  (checkHash env st sha).1

/-- State after a lookup. -/
def checkHashState (env : HashEnv) (st : HashState) (sha : String) : HashState :=
  (checkHash env st sha).2.1

/-- Event trace of a lookup. -/
def checkHashEvents (env : HashEnv) (st : HashState) (sha : String) : List HashEvent :=
  (checkHash env st sha).2.2

/-- Shard contents a lookup for this `pfx` would see. -/
def loadShardSet (env : HashEnv) (st : HashState) (pfx : String) : List String :=
  (loadShard env st pfx).1

end HashDB

/-! ## Claims about the reputation store lookup order and shard caching -/

/-- Environment with no packaged shard files. -/
def noPkgEnv : HashDB.HashEnv := ⟨fun _ => none⟩

/-- A well-formed lowercase digest with prefix `ab`. -/
def abDigest : String :=
  "ab00000000000000000000000000000000000000000000000000000000000000"

/-- Store state where `abDigest` is both a caller-supplied custom entry and
present in the storage-cached shard for prefix `ab`. -/
def c1state : HashDB.HashState :=
  { customHashes := [⟨abDigest, "user-supplied entry"⟩]
    localHashes := []
    shardCache := []
    shardStorage := [("ab", abDigest)] }

/-- C1 counterexample: the digest is present in the custom tier, yet
`checkHash` reports it with shard provenance — the custom tier was not
consulted first — and a shard storage read happened before the custom tier
could answer, contradicting the claimed custom-first order. -/
theorem claim_C1_counterexample :
    (HashDB.checkHashResult noPkgEnv c1state abDigest).found = true ∧
    (HashDB.checkHashResult noPkgEnv c1state abDigest).source = "shard:ab" ∧
    (HashDB.checkHashResult noPkgEnv c1state abDigest).source ≠ "custom" ∧
    HashDB.checkHashEvents noPkgEnv c1state abDigest ≠ [] := by decide

lemma loadShard_events_ne (env : HashDB.HashEnv) (st : HashDB.HashState)
    {pfx : String} (h : pfx ≠ "") :
    (HashDB.loadShard env st pfx).2.2 ≠ [] := by
  unfold HashDB.loadShard
  rw [if_neg h]
  cases hl : st.shardStorage.lookup (strToLower pfx)
  · cases hp : (env.pkgShard (strToLower pfx)) <;> simp [hl, hp]
  · simp [hl]

/-- C1 amended: the actual fixed lookup order of `checkHash` is the merged
local set (packaged baseline plus previously cached bulk) first, then the
on-demand shard selected by the first two hex characters, then the
caller-supplied custom entries last; a digest present only in the custom
tier is still reported found, but only after the shard load (a storage read
and possibly a packaged-shard fetch) has been attempted. -/
theorem claim_C1_amended_lookup_order (env : HashDB.HashEnv)
    (st : HashDB.HashState) (sha : String) (h0 : sha ≠ "") :
    (st.localHashes.contains (trimStr (strToLower sha)) = true →
      (HashDB.checkHashResult env st sha).source = "local" ∧
      HashDB.checkHashEvents env st sha = []) ∧
    (st.localHashes.contains (trimStr (strToLower sha)) = false →
      (HashDB.loadShardSet env st
          (String.mk ((trimStr (strToLower sha)).data.take 2))).contains
          (trimStr (strToLower sha)) = true →
      (HashDB.checkHashResult env st sha).source =
        "shard:" ++ String.mk ((trimStr (strToLower sha)).data.take 2)) ∧
    (st.localHashes.contains (trimStr (strToLower sha)) = false →
      (HashDB.loadShardSet env st
          (String.mk ((trimStr (strToLower sha)).data.take 2))).contains
          (trimStr (strToLower sha)) = false →
      (st.customHashes.find? (fun c => c.hash = trimStr (strToLower sha))).isSome = true →
      (HashDB.checkHashResult env st sha).found = true ∧
      (HashDB.checkHashResult env st sha).source = "custom" ∧
      (String.mk ((trimStr (strToLower sha)).data.take 2) ≠ "" →
        HashDB.checkHashEvents env st sha ≠ [])) := by
  refine ⟨?_, ?_, ?_⟩
  · intro hl
    simp only [HashDB.checkHashResult, HashDB.checkHashEvents, HashDB.checkHash,
      if_neg h0, hl]
    simp
  · intro hl hs
    simp only [HashDB.loadShardSet] at hs
    simp only [HashDB.checkHashResult, HashDB.checkHash, if_neg h0, hl, hs]
    simp
  · intro hl hs hc
    obtain ⟨c, hcv⟩ := Option.isSome_iff_exists.mp hc
    simp only [HashDB.loadShardSet] at hs
    simp only [HashDB.checkHashResult, HashDB.checkHashEvents, HashDB.checkHash,
      if_neg h0, hl, hs, hcv]
    simp only [Bool.false_eq_true, if_false]
    refine ⟨trivial, trivial, fun hp => ?_⟩
    exact loadShard_events_ne env st hp

/-- Store state where the digest exists only in the custom tier. -/
def c1customOnly : HashDB.HashState :=
  { customHashes := [⟨abDigest, "user-supplied entry"⟩]
    localHashes := []
    shardCache := []
    shardStorage := [] }

/-- Witness for the amended C1 at a digest present only in the custom tier:
found with custom provenance, but the shard load happened first. -/
theorem claim_C1_amended_lookup_order_witness :
    (HashDB.checkHashResult noPkgEnv c1customOnly abDigest).found = true ∧
    (HashDB.checkHashResult noPkgEnv c1customOnly abDigest).source = "custom" ∧
    HashDB.checkHashEvents noPkgEnv c1customOnly abDigest ≠ [] := by
  have h := (claim_C1_amended_lookup_order noPkgEnv c1customOnly abDigest
    (by decide)).2.2 (by decide) (by decide) (by decide)
  exact ⟨h.1, h.2.1, h.2.2 (by decide)⟩

/-- The initial store state: nothing cached anywhere. -/
def emptyHashState : HashDB.HashState := ⟨[], [], [], []⟩

/-- C8: after a completed shard load for prefix `ab` whose negative result
was cached in `shardCache`, a second lookup for the same prefix still
performs a fresh storage read and packaged fetch — `loadShard` never
consults `shardCache`, contradicting its own comments (`Shard cache`,
`cache empty set to avoid repeated requests`). -/
theorem claim_C8_second_lookup_repeats_shard_load :
    (HashDB.checkHashState noPkgEnv emptyHashState abDigest).shardCache =
      [("ab", [])] ∧
    HashDB.checkHashEvents noPkgEnv emptyHashState abDigest =
      [.storageRead "sha256_shard_ab", .packagedFetch "ab"] ∧
    HashDB.checkHashEvents noPkgEnv
        (HashDB.checkHashState noPkgEnv emptyHashState abDigest) abDigest =
      [.storageRead "sha256_shard_ab", .packagedFetch "ab"] := by decide

/-! ## Dataset updater (`DBUpdater`)

Environment inputs model the network (`fetch`), the platform digest
primitive (`crypto.subtle.digest`, exposed through `sha256Hex`) and UTF-8
decoding; the storage keys the updater touches are the fields of
`UpdStore`.  The in-memory `HashDB.shardCache` clearing performed by
`downloadAndCacheShards` is a cross-module effect not needed by the claims
and is not part of this store. -/

namespace DBUpdater

/-- Fetched metadata descriptor (`{version, url, sha256, shardIndexUrl?}`). -/
structure RemoteMeta where
  version : String
  url : String
  sha256 : String
  shardIndexUrl : Option String
deriving DecidableEq, Repr

/-- One shard-index entry (`{prefix, url, sha256}`; empty string models a
missing field). -/
structure ShardEntry where
  pfx : String
  url : String
  sha256 : String
deriving DecidableEq, Repr

/-- Shard index document (`{shards, version}`). -/
structure ShardIndexDoc where
  shards : List ShardEntry
  version : String
deriving DecidableEq, Repr

structure UpdEnv where
  metaSha : Option RemoteMeta
  metaIp : Option RemoteMeta
  fetchBody : String → Option (List ℕ)
  sha256Hex : List ℕ → String
  decodeUtf8 : List ℕ → String
  shardIndexAt : String → Option ShardIndexDoc

/-- The `storage.local` keys the updater writes: `sha256_remote_text`,
`sha256_remote_metadata`, `sha256_shard_<pfx>`, `sha256_shard_meta_<pfx>`
(only its stored digest matters here), `sha256_shards_index`,
`sha256_shardindex_metadata` (only its version matters here), and the two
`ip_*` keys. -/
structure UpdStore where
  sha256_remote_text : Option String
  sha256_remote_meta : Option RemoteMeta
  shardData : List (String × String)
  shardMeta : List (String × String)
  shardsIndexKey : Option (List String)
  shardIndexMetaVersion : Option String
  ip_remote_text : Option String
  ip_remote_meta : Option RemoteMeta
deriving DecidableEq, Repr

/-- Source function `DBUpdater.downloadAndVerify`: fetch, recompute the
digest, reject on mismatch with the declared digest. -/
def downloadAndVerify (env : UpdEnv) (url expected : String) :
    Except String (String × String) :=
  match env.fetchBody url with
  | none => .error "Download failed"
  | some buf =>
    let hex := env.sha256Hex buf
    if expected ≠ "" ∧ hex ≠ strToLower expected then
      .error "Checksum mismatch"
    else
      .ok (env.decodeUtf8 buf, hex)

/-- Loop body of `downloadAndCacheShards` for one shard-index entry; the
accumulator carries the store and the `prefixes` list (pushed before the
skip check, as in the source).  A failed download/verify is caught and the
entry skipped. -/
def cacheShardStep (env : UpdEnv) (acc : UpdStore × List String)
    (entry : ShardEntry) : UpdStore × List String :=
  let p := strToLower entry.pfx
  if p = "" ∨ entry.url = "" then acc
  else
    let store := acc.1
    let pfxs := acc.2 ++ [p]
    let skip : Bool :=
      match store.shardMeta.lookup p with
      | some m => entry.sha256 != "" && m != "" && strToLower entry.sha256 == m
      | none => false
    if skip then (store, pfxs)
    else
      match downloadAndVerify env entry.url entry.sha256 with
      | .error _ => (store, pfxs)
      | .ok (text, hex) =>
        ({ store with
            shardData := upsert store.shardData p text
            shardMeta := upsert store.shardMeta p hex }, pfxs)

/-- Source function `DBUpdater.downloadAndCacheShards`: processes every
entry, then unconditionally saves the prefix list as the shards index. -/
def downloadAndCacheShards (env : UpdEnv) (store : UpdStore)
    (sidx : ShardIndexDoc) : UpdStore × ℕ :=
  let folded := sidx.shards.foldl (cacheShardStep env) (store, [])
  ({ folded.1 with shardsIndexKey := some folded.2 }, folded.2.length)

/-- Result of one dataset branch of `checkAndUpdateAll`. -/
inductive UpdateOutcome where
  | updatedShards (count : ℕ)
  | updatedFull (version : String)
  | notUpdated (version : String)
  | failedU (msg : String)
deriving DecidableEq, Repr

/-- The SHA256 branch of `DBUpdater.checkAndUpdateAll`. -/
def updateSha (env : UpdEnv) (store : UpdStore) : UpdateOutcome × UpdStore :=
  match env.metaSha with
  | none => (.failedU "Metadata fetch failed", store)
  | some meta =>
    match meta.shardIndexUrl with
    | some siu =>
      match env.shardIndexAt siu with
      | none => (.failedU "Shard index fetch failed", store)
      | some sidx =>
        let r := downloadAndCacheShards env store sidx
        (.updatedShards r.2,
          { r.1 with
              sha256_remote_meta := some meta
              shardIndexMetaVersion :=
                some (if sidx.version ≠ "" then sidx.version else meta.version) })
    | none =>
      let differs : Bool :=
        match store.sha256_remote_meta with
        | none => true
        | some o => meta.version != o.version || meta.sha256 != o.sha256
      if differs then
        match downloadAndVerify env meta.url meta.sha256 with
        | .error e => (.failedU e, store)
        | .ok (text, _) =>
          (.updatedFull meta.version,
            { store with
                sha256_remote_text := some text
                sha256_remote_meta := some meta })
      else (.notUpdated meta.version, store)

/-- The IP branch of `DBUpdater.checkAndUpdateAll` (whole-file mode only). -/
def updateIp (env : UpdEnv) (store : UpdStore) : UpdateOutcome × UpdStore :=
  match env.metaIp with
  | none => (.failedU "Metadata fetch failed", store)
  | some meta =>
    let differs : Bool :=
      match store.ip_remote_meta with
      | none => true
      | some o => meta.version != o.version || meta.sha256 != o.sha256
    if differs then
      match downloadAndVerify env meta.url meta.sha256 with
      | .error e => (.failedU e, store)
      | .ok (text, _) =>
        (.updatedFull meta.version,
          { store with
              ip_remote_text := some text
              ip_remote_meta := some meta })
    else (.notUpdated meta.version, store)

/-- Source function `DBUpdater.checkAndUpdateAll`: SHA256 first, then IP,
each branch catching its own errors. -/
def checkAndUpdateAll (env : UpdEnv) (store : UpdStore) :
    (UpdateOutcome × UpdateOutcome) × UpdStore :=
  let s := updateSha env store
  let i := updateIp env s.2
  ((s.1, i.1), i.2)

/-- The SHA256-dataset cache keys of the store, as one tuple. -/
def shaCacheFields (s : UpdStore) :
    Option String × Option RemoteMeta × List (String × String) ×
      List (String × String) × Option (List String) × Option String :=
  (s.sha256_remote_text, s.sha256_remote_meta, s.shardData, s.shardMeta,
    s.shardsIndexKey, s.shardIndexMetaVersion)

end DBUpdater

/-! ## Claims about the dataset updater -/

deriving instance DecidableEq for Except

lemma updateIp_preserves_sha (env : DBUpdater.UpdEnv) (store : DBUpdater.UpdStore) :
    DBUpdater.shaCacheFields (DBUpdater.updateIp env store).2 =
      DBUpdater.shaCacheFields store := by
  unfold DBUpdater.updateIp
  rcases hm : env.metaIp with _ | meta
  · rfl
  · simp only []
    split
    · rcases hd : DBUpdater.downloadAndVerify env meta.url meta.sha256 with e | p
      · simp [hd]
      · simp [hd, DBUpdater.shaCacheFields]
    · rfl

/-- Shard-index entry whose declared digest will not match the downloaded
bytes. -/
def c2entry : DBUpdater.ShardEntry :=
  ⟨"ab", "https://db.example/shards/ab.txt", "dddd"⟩

def c2sidx : DBUpdater.ShardIndexDoc := ⟨[c2entry], "2"⟩

def c2meta : DBUpdater.RemoteMeta :=
  ⟨"2", "https://db.example/sha256.txt", "aaaa", some "https://db.example/index.json"⟩

/-- Environment for a shard-mode update in which the only shard fails
checksum verification (`sha256Hex` of the downloaded bytes is `eeee`, the
declared digest is `dddd`). -/
def c2env : DBUpdater.UpdEnv :=
  { metaSha := some c2meta
    metaIp := none
    fetchBody := fun u => if u = "https://db.example/shards/ab.txt" then some [1] else none
    sha256Hex := fun _ => "eeee"
    decodeUtf8 := fun _ => "payload"
    shardIndexAt := fun u =>
      if u = "https://db.example/index.json" then some c2sidx else none }

def c2store0 : DBUpdater.UpdStore := ⟨none, none, [], [], none, none, none, none⟩

/-- C2 counterexample: a shard-mode update whose only shard fails digest
verification is nevertheless reported as updated (not failed), and the
shard-index and dataset metadata markers are rewritten. -/
theorem claim_C2_counterexample :
    DBUpdater.downloadAndVerify c2env c2entry.url c2entry.sha256 =
      .error "Checksum mismatch" ∧
    (DBUpdater.checkAndUpdateAll c2env c2store0).1.1 = .updatedShards 1 ∧
    (DBUpdater.checkAndUpdateAll c2env c2store0).2.shardsIndexKey = some ["ab"] ∧
    c2store0.shardsIndexKey = none ∧
    (DBUpdater.checkAndUpdateAll c2env c2store0).2.sha256_remote_meta = some c2meta ∧
    c2store0.sha256_remote_meta = none := by decide

/-- C2 amended: a checksum mismatch never stores the mismatched payload.  In
whole-dataset mode the update is reported failed and every SHA256 cache key
is left unchanged; in shard mode the mismatched shard is skipped, leaving
its stored text and digest marker unchanged (but, per the counterexample,
the operation still rewrites the shard index and metadata markers and
reports the dataset as updated). -/
theorem claim_C2_amended_checksum_rejection :
    (∀ (env : DBUpdater.UpdEnv) (store : DBUpdater.UpdStore)
        (meta : DBUpdater.RemoteMeta) (body : List ℕ),
      env.metaSha = some meta →
      meta.shardIndexUrl = none →
      (match store.sha256_remote_meta with
       | none => True
       | some o => meta.version ≠ o.version ∨ meta.sha256 ≠ o.sha256) →
      env.fetchBody meta.url = some body →
      meta.sha256 ≠ "" →
      env.sha256Hex body ≠ strToLower meta.sha256 →
      (DBUpdater.checkAndUpdateAll env store).1.1 = .failedU "Checksum mismatch" ∧
      DBUpdater.shaCacheFields (DBUpdater.checkAndUpdateAll env store).2 =
        DBUpdater.shaCacheFields store) ∧
    (∀ (env : DBUpdater.UpdEnv) (store : DBUpdater.UpdStore) (pfxs : List String)
        (entry : DBUpdater.ShardEntry) (msg : String),
      DBUpdater.downloadAndVerify env entry.url entry.sha256 = .error msg →
      (DBUpdater.cacheShardStep env (store, pfxs) entry).1.shardData =
        store.shardData ∧
      (DBUpdater.cacheShardStep env (store, pfxs) entry).1.shardMeta =
        store.shardMeta) := by
  constructor
  · intro env store meta body h1 h2 h3 h4 h5 h6
    have hver : DBUpdater.downloadAndVerify env meta.url meta.sha256 =
        .error "Checksum mismatch" := by
      unfold DBUpdater.downloadAndVerify
      rw [h4]
      simp only []
      rw [if_pos ⟨h5, h6⟩]
    have hsha : DBUpdater.updateSha env store =
        (.failedU "Checksum mismatch", store) := by
      unfold DBUpdater.updateSha
      rw [h1]
      simp only [h2]
      have hdif : (match store.sha256_remote_meta with
          | none => true
          | some o => meta.version != o.version || meta.sha256 != o.sha256) = true := by
        rcases hsm : store.sha256_remote_meta with _ | o
        · rfl
        · rw [hsm] at h3
          rcases h3 with h | h <;> simp [bne_iff_ne, h]
      rw [hdif]
      simp only [if_true, hver]
    unfold DBUpdater.checkAndUpdateAll
    rw [hsha]
    exact ⟨rfl, updateIp_preserves_sha env store⟩
  · intro env store pfxs entry msg hfail
    unfold DBUpdater.cacheShardStep
    simp only [hfail]
    split
    · exact ⟨rfl, rfl⟩
    · split
      · exact ⟨rfl, rfl⟩
      · exact ⟨rfl, rfl⟩

/-- Whole-dataset-mode metadata whose declared digest will not match. -/
def c2fullmeta : DBUpdater.RemoteMeta :=
  ⟨"3", "https://db.example/full.txt", "aaaa", none⟩

def c2envFull : DBUpdater.UpdEnv :=
  { metaSha := some c2fullmeta
    metaIp := none
    fetchBody := fun u => if u = "https://db.example/full.txt" then some [2] else none
    sha256Hex := fun _ => "bbbb"
    decodeUtf8 := fun _ => "txt"
    shardIndexAt := fun _ => none }

/-- Witness for the amended C2: a concrete full-mode mismatch is rejected
with the store unchanged, and a concrete mismatched shard entry leaves the
shard keys unchanged. -/
theorem claim_C2_amended_checksum_rejection_witness :
    ((DBUpdater.checkAndUpdateAll c2envFull c2store0).1.1 =
        .failedU "Checksum mismatch" ∧
      DBUpdater.shaCacheFields (DBUpdater.checkAndUpdateAll c2envFull c2store0).2 =
        DBUpdater.shaCacheFields c2store0) ∧
    ((DBUpdater.cacheShardStep c2env (c2store0, []) c2entry).1.shardData =
        c2store0.shardData ∧
      (DBUpdater.cacheShardStep c2env (c2store0, []) c2entry).1.shardMeta =
        c2store0.shardMeta) :=
  ⟨claim_C2_amended_checksum_rejection.1 c2envFull c2store0 c2fullmeta [2]
      rfl rfl trivial (by decide) (by decide) (by decide),
    claim_C2_amended_checksum_rejection.2 c2env c2store0 [] c2entry
      "Checksum mismatch" (by decide)⟩

/-! ## Feature extractor (`FeatureExtractor`)

The syntax tree produced by the external parser (acorn) is modelled as a
closed tagged-variant type covering exactly the node kinds the extractor's
rule table inspects; every other construct only contributes its children.
`walkAST` visits every node once carrying its depth; the traversal is the
`nodesOf`/`nodesL` pair below. -/

def squote : Char := Char.ofNat 39

def backtickChar : Char := Char.ofNat 96

/-- Word character for the `\b` boundary of JS regexes. -/
def wordChar (c : Char) : Bool :=
  c.isAlphanum || c = '_'

inductive Ast where
  | program (body : List Ast)
  | exprStmt (e : Ast)
  | callE (callee : Ast) (args : List Ast)
  | newE (callee : Ast) (args : List Ast)
  | memberE (obj : Ast) (prop : Ast) (computed : Bool)
  | assignE (left : Ast) (right : Ast)
  | ident (nm : String)
  | lit (strVal : Option String)
  | binE (op : String) (l : Ast) (r : Ast)
  | forStmt (children : List Ast)
  | whileStmt (children : List Ast)
  | doWhileStmt (children : List Ast)
  | forInStmt (children : List Ast)
  | forOfStmt (children : List Ast)
  | ifStmt (children : List Ast)
  | switchStmt (children : List Ast)
  | condE (children : List Ast)
  | funcDecl (children : List Ast)
  | funcExpr (children : List Ast)
  | arrowFunc (children : List Ast)

mutual

/-- All nodes of the tree paired with their depth (`walkAST`). -/
def nodesOf : Ast → ℕ → List (Ast × ℕ)
  | .program body, d => (.program body, d) :: nodesL body (d + 1)
  | .exprStmt e, d => (.exprStmt e, d) :: nodesOf e (d + 1)
  | .callE c args, d => (.callE c args, d) :: (nodesOf c (d + 1) ++ nodesL args (d + 1))
  | .newE c args, d => (.newE c args, d) :: (nodesOf c (d + 1) ++ nodesL args (d + 1))
  | .memberE o p cm, d => (.memberE o p cm, d) :: (nodesOf o (d + 1) ++ nodesOf p (d + 1))
  | .assignE l r, d => (.assignE l r, d) :: (nodesOf l (d + 1) ++ nodesOf r (d + 1))
  | .ident nm, d => [(.ident nm, d)]
  | .lit v, d => [(.lit v, d)]
  | .binE op l r, d => (.binE op l r, d) :: (nodesOf l (d + 1) ++ nodesOf r (d + 1))
  | .forStmt ch, d => (.forStmt ch, d) :: nodesL ch (d + 1)
  | .whileStmt ch, d => (.whileStmt ch, d) :: nodesL ch (d + 1)
  | .doWhileStmt ch, d => (.doWhileStmt ch, d) :: nodesL ch (d + 1)
  | .forInStmt ch, d => (.forInStmt ch, d) :: nodesL ch (d + 1)
  | .forOfStmt ch, d => (.forOfStmt ch, d) :: nodesL ch (d + 1)
  | .ifStmt ch, d => (.ifStmt ch, d) :: nodesL ch (d + 1)
  | .switchStmt ch, d => (.switchStmt ch, d) :: nodesL ch (d + 1)
  | .condE ch, d => (.condE ch, d) :: nodesL ch (d + 1)
  | .funcDecl ch, d => (.funcDecl ch, d) :: nodesL ch (d + 1)
  | .funcExpr ch, d => (.funcExpr ch, d) :: nodesL ch (d + 1)
  | .arrowFunc ch, d => (.arrowFunc ch, d) :: nodesL ch (d + 1)

def nodesL : List Ast → ℕ → List (Ast × ℕ)
  | [], _ => []
  | a :: as, d => nodesOf a d ++ nodesL as d

end

/-- JS `node.callee.name`: defined only for identifiers. -/
def calleeName : Ast → Option String
  | .ident nm => some nm
  | _ => none

namespace FeatureExtractor

/-- Source function `FeatureExtractor.countDangerousFunctions` (the derived
`total` field is omitted; it is read by no consumer). -/
def countDangerousFunctions (ast : Ast) : DangerFeatures :=
  let ns := (nodesOf ast 0).map Prod.fst
  { eval := (ns.filter (fun n => match n with
      | .callE c _ => calleeName c == some "eval"
      | _ => false)).length
    Function := (ns.filter (fun n => match n with
      | .newE c _ => calleeName c == some "Function"
      | _ => false)).length
    setTimeout_string := (ns.filter (fun n => match n with
      | .callE c args =>
        calleeName c == some "setTimeout" &&
          (match args.head? with | some (.lit _) => true | _ => false)
      | _ => false)).length
    setInterval_string := (ns.filter (fun n => match n with
      | .callE c args =>
        calleeName c == some "setInterval" &&
          (match args.head? with | some (.lit _) => true | _ => false)
      | _ => false)).length
    document_write := (ns.filter (fun n => match n with
      | .callE (.memberE (.ident o) (.ident p) _) _ => o == "document" && p == "write"
      | _ => false)).length
    atob := (ns.filter (fun n => match n with
      | .callE c _ => calleeName c == some "atob"
      | _ => false)).length
    btoa := (ns.filter (fun n => match n with
      | .callE c _ => calleeName c == some "btoa"
      | _ => false)).length
    unescape := (ns.filter (fun n => match n with
      | .callE c _ => calleeName c == some "unescape"
      | _ => false)).length
    decodeURIComponent := (ns.filter (fun n => match n with
      | .callE c _ => calleeName c == some "decodeURIComponent"
      | _ => false)).length
    innerHTML := (ns.filter (fun n => match n with
      | .assignE (.memberE _ (.ident p) _) _ => p == "innerHTML"
      | _ => false)).length
    outerHTML := (ns.filter (fun n => match n with
      | .assignE (.memberE _ (.ident p) _) _ => p == "outerHTML"
      | _ => false)).length }

/-- Source function `FeatureExtractor.detectSuspiciousPatterns`. -/
def detectSuspiciousPatterns (ast : Ast) : PatternFeatures :=
  let ns := (nodesOf ast 0).map Prod.fst
  { dynamicPropertyAccess := (ns.filter (fun n => match n with
      | .memberE _ _ true => true
      | _ => false)).length
    importScripts := (ns.filter (fun n => match n with
      | .callE c _ => calleeName c == some "importScripts"
      | _ => false)).length
    webSocket := (ns.filter (fun n => match n with
      | .newE c _ => calleeName c == some "WebSocket"
      | _ => false)).length
    xhr := (ns.filter (fun n => match n with
      | .newE c _ => calleeName c == some "XMLHttpRequest"
      | _ => false)).length
    fetch := (ns.filter (fun n => match n with
      | .callE c _ => calleeName c == some "fetch"
      | _ => false)).length
    postMessage := (ns.filter (fun n => match n with
      | .callE (.memberE _ (.ident p) _) _ => p == "postMessage"
      | _ => false)).length
    localStorage := (ns.filter (fun n => match n with
      | .memberE (.ident o) _ _ => o == "localStorage"
      | _ => false)).length
    cookie := (ns.filter (fun n => match n with
      | .memberE (.ident o) (.ident p) _ => o == "document" && p == "cookie"
      | _ => false)).length }

/-- Source function `FeatureExtractor.calculateComplexity`. -/
def calculateComplexity (ast : Ast) : ComplexityFeatures :=
  let ns := nodesOf ast 0
  let loops := (ns.filter (fun p => match p.1 with
    | .forStmt _ | .whileStmt _ | .doWhileStmt _ | .forInStmt _ | .forOfStmt _ => true
    | _ => false)).length
  let conditionals := (ns.filter (fun p => match p.1 with
    | .ifStmt _ | .switchStmt _ | .condE _ => true
    | _ => false)).length
  let functions := (ns.filter (fun p => match p.1 with
    | .funcDecl _ | .funcExpr _ | .arrowFunc _ => true
    | _ => false)).length
  let maxNestingDepth := (ns.map Prod.snd).foldl max 0
  { loops := loops
    conditionals := conditionals
    functions := functions
    maxNestingDepth := maxNestingDepth
    cyclomaticComplexity := 1 + conditionals + loops }

end FeatureExtractor

/-! ### Regex scanners used by the extractor -/

/-- Hex digit of either case (`[0-9a-f]` with the `i` flag). -/
def isHexDigitCI (c : Char) : Bool :=
  c.isDigit || ('a' ≤ c && c ≤ 'f') || ('A' ≤ c && c ≤ 'F')

/-- Global count of `/\\x[0-9a-f]{2}/gi`. -/
def countHexEscapes : List Char → ℕ
  | '\\' :: x :: a :: b :: cs =>
    if (x = 'x' || x = 'X') && isHexDigitCI a && isHexDigitCI b then
      1 + countHexEscapes cs
    else
      countHexEscapes (x :: a :: b :: cs)
  | _ :: cs => countHexEscapes cs
  | [] => 0

/-- Global count of `/\\u[0-9a-f]{4}/gi`. -/
def countUnicodeEscapes : List Char → ℕ
  | '\\' :: x :: a :: b :: c :: d :: cs =>
    if (x = 'u' || x = 'U') && isHexDigitCI a && isHexDigitCI b &&
        isHexDigitCI c && isHexDigitCI d then
      1 + countUnicodeEscapes cs
    else
      countUnicodeEscapes (x :: a :: b :: c :: d :: cs)
  | _ :: cs => countUnicodeEscapes cs
  | [] => 0

/-- Character class `[A-Za-z0-9+/]` of the base64 regex. -/
def isB64Char (c : Char) : Bool :=
  c.isAlphanum || c = '+' || c = '/'

/-- Close one candidate run of the regex `/[A-Za-z0-9+/]{20,}={0,2}/g`
followed by the character-class-ratio filter of `countBase64Strings`
(`validChars / m.length > 0.9`, where `validChars` is the run length and
the matched length also counts the up-to-two `=` signs). -/
def b64close (run e : ℕ) : ℕ :=
  if 20 ≤ run ∧ ((run : ℚ) / ((run + e : ℕ) : ℚ) > 0.9) then 1 else 0

/-- Scan for maximal base64-class runs, consuming up to two trailing `=`. -/
def b64scan : List Char → ℕ → ℕ
  | [], run => b64close run 0
  | '=' :: '=' :: cs, run => b64close run 2 + b64scan cs 0
  | '=' :: cs, run => b64close run 1 + b64scan cs 0
  | c :: cs, run =>
    if isB64Char c then b64scan cs (run + 1)
    else b64close run 0 + b64scan cs 0

/-- Source helper `FeatureExtractor.countBase64Strings` (regex count plus
ratio filter). -/
def countBase64Strings (code : String) : ℕ :=
  b64scan code.data 0

/-- Close one candidate run of the fallback path's plain
`/[A-Za-z0-9+/]{20,}={0,2}/g` count (no ratio filter). -/
def b64closeRaw (run : ℕ) : ℕ :=
  if 20 ≤ run then 1 else 0

def b64scanRaw : List Char → ℕ → ℕ
  | [], run => b64closeRaw run
  | '=' :: '=' :: cs, run => b64closeRaw run + b64scanRaw cs 0
  | '=' :: cs, run => b64closeRaw run + b64scanRaw cs 0
  | c :: cs, run =>
    if isB64Char c then b64scanRaw cs (run + 1)
    else b64closeRaw run + b64scanRaw cs 0

/-- Count of matches of `p1|p2` (two literal alternatives, leftmost then
first-alternative preference, non-overlapping). -/
def countAltOccursF (p1 p2 : String) : ℕ → List Char → ℕ
  | 0, _ => 0
  | _ + 1, [] => 0
  | fuel + 1, c :: cs =>
    if isPrefixList p1.data (c :: cs) then
      1 + countAltOccursF p1 p2 fuel (List.drop (p1.length - 1) cs)
    else if isPrefixList p2.data (c :: cs) then
      1 + countAltOccursF p1 p2 fuel (List.drop (p2.length - 1) cs)
    else
      countAltOccursF p1 p2 fuel cs

def countAltOccurs (p1 p2 : String) (cs : List Char) : ℕ :=
  countAltOccursF p1 p2 cs.length cs

/-- Generic global-regex scan: `m cs` returns the length of a match starting
at `cs`, which is then consumed; otherwise advance one character. -/
def scanCountF (m : List Char → Option ℕ) : ℕ → List Char → ℕ
  | 0, _ => 0
  | _ + 1, [] => 0
  | fuel + 1, c :: cs =>
    match m (c :: cs) with
    | some n => 1 + scanCountF m fuel (List.drop (n - 1) cs)
    | none => scanCountF m fuel cs

def scanCount (m : List Char → Option ℕ) (cs : List Char) : ℕ :=
  scanCountF m cs.length cs

/-- Generic scan for patterns starting with a `\b` boundary; the flag tracks
whether the previous character was a word character. -/
def scanCountBF (m : List Char → Option ℕ) : ℕ → List Char → Bool → ℕ
  | 0, _, _ => 0
  | _ + 1, [], _ => 0
  | fuel + 1, c :: cs, prevW =>
    if !prevW then
      match m (c :: cs) with
      | some n =>
        1 + scanCountBF m fuel (List.drop (n - 1) cs)
          (match ((c :: cs).take n).getLast? with
           | some lc => wordChar lc
           | none => prevW)
      | none => scanCountBF m fuel cs (wordChar c)
    else
      scanCountBF m fuel cs (wordChar c)

def scanCountB (m : List Char → Option ℕ) (cs : List Char) (prevW : Bool) : ℕ :=
  scanCountBF m cs.length cs prevW

/-- Character class `[^\s"'`<>)]` of the URL regex (body characters). -/
def urlBodyChar (c : Char) : Bool :=
  !(c.isWhitespace || c = '"' || c = squote || c = backtickChar ||
    c = '<' || c = '>' || c = ')')

/-- Global scan for `/https?:\/\/[^\s"'`<>)]+/gi`. -/
def urlScanF : ℕ → List Char → List String
  | 0, _ => []
  | _ + 1, [] => []
  | fuel + 1, c :: rest =>
    match schemeLen (c :: rest) with
    | some k =>
      let body := (List.drop k (c :: rest)).takeWhile urlBodyChar
      if body.isEmpty then urlScanF fuel rest
      else
        String.mk ((c :: rest).take k ++ body) ::
          urlScanF fuel (List.drop (k - 1 + body.length) rest)
    | none => urlScanF fuel rest

def urlScan (cs : List Char) : List String :=
  urlScanF cs.length cs

/-- List deduplication in insertion order (JS `Set` behaviour). -/
def dedup (l : List String) : List String :=
  l.foldl (fun acc s => if acc.contains s then acc else acc ++ [s]) []

/-- JS `q.toFixed(2)` re-read by `parseFloat`, as an exact rational. -/
def round2q (q : ℚ) : ℚ :=
  ((⌊q * 100 + 1/2⌋ : ℤ) : ℚ) / 100

namespace FeatureExtractor

/-- Source function `FeatureExtractor.analyzeURLs`. -/
def analyzeURLs (code : String) (scriptUrl : String) : UrlFeatures :=
  let urls := urlScan code.data
  let scriptDomain :=
    match parseURL scriptUrl with
    | some u => u.hostname
    | none => ""
  let parsed := urls.filterMap parseURL
  let domains := dedup (parsed.map (fun u => u.hostname))
  let externalCount := (parsed.filter (fun u => u.hostname ≠ scriptDomain)).length
  { totalUrls := urls.length
    uniqueDomains := domains.length
    externalUrls := externalCount
    externalPercentage :=
      if urls.length > 0 then
        round2q ((externalCount : ℚ) / (urls.length : ℚ) * 100)
      else 0
    domains := domains }

/-- Source function `FeatureExtractor.detectObfuscation`.  The derived
`score` is computed from the unclamped sum exactly as in the source
(`isObfuscated` uses the unclamped value, `score` the 100-capped one). -/
def detectObfuscation (code : String) (ast : Ast) : ObfFeatures :=
  let longIdentifiers := (((nodesOf ast 0).map Prod.fst).filter (fun n =>
    match n with
    | .ident nm => nm.length > 30
    | _ => false)).length
  let stringConcatenation := (((nodesOf ast 0).map Prod.fst).filter (fun n =>
    match n with
    | .binE op l r =>
      op == "+" &&
        ((match l with | .lit (some _) => true | _ => false) ||
         (match r with | .lit (some _) => true | _ => false))
    | _ => false)).length
  let hexStrings := countHexEscapes code.data
  let unicodeEscapes := countUnicodeEscapes code.data
  let base64Strings := countBase64Strings code
  let charCodeUsage := countAltOccurs "String.fromCharCode" "charCodeAt" code.data
  let score :=
    (if hexStrings > 10 then 20 else 0) +
    (if unicodeEscapes > 10 then 20 else 0) +
    (if base64Strings > 5 then 15 else 0) +
    (if longIdentifiers > 5 then 10 else 0) +
    (if stringConcatenation > 20 then 15 else 0) +
    (if charCodeUsage > 5 then 20 else 0)
  { hexStrings := hexStrings
    unicodeEscapes := unicodeEscapes
    base64Strings := base64Strings
    longIdentifiers := longIdentifiers
    stringConcatenation := stringConcatenation
    charCodeUsage := charCodeUsage
    score := min score 100
    isObfuscated := score > 40 }

end FeatureExtractor

/-! ### Shannon entropy (exact-real idealisation of the float arithmetic) -/

/-- Frequency table of a string's characters (insertion order). -/
def bumpChar : List (Char × ℕ) → Char → List (Char × ℕ)
  | [], c => [(c, 1)]
  | (c', k) :: rest, c =>
    if c' = c then (c', k + 1) :: rest else (c', k) :: bumpChar rest c

def freqList (s : String) : List (Char × ℕ) :=
  s.data.foldl bumpChar []

/-- Source helper `FeatureExtractor.calculateEntropy`:
`-Σ p log2 p` over the character frequencies. -/
noncomputable def calculateEntropy (s : String) : ℝ :=
  if s.length = 0 then 0
  else
    -(((freqList s).map (fun p =>
      ((p.2 : ℝ) / (s.length : ℝ)) * Real.logb 2 ((p.2 : ℝ) / (s.length : ℝ)))).sum)

/-- JS `x.toFixed(3)` re-read by `parseFloat`, as an exact rational. -/
noncomputable def round3 (x : ℝ) : ℚ :=
  ((⌊x * 1000 + 1/2⌋ : ℤ) : ℚ) / 1000

namespace FeatureExtractor

/-- Source function `FeatureExtractor.analyzeStrings` (the derived
`avgStringLength`, read by no consumer, is omitted from the record; the
shape claims account for it separately). -/
def collectStrings (ast : Ast) : List String :=
  ((nodesOf ast 0).map Prod.fst).filterMap (fun n =>
    match n with
    | .lit (some s) => some s
    | _ => none)

noncomputable def analyzeStrings (ast : Ast) : StringFeatures :=
  let strings := collectStrings ast
  let entropies := strings.map calculateEntropy
  let avg : ℝ := if entropies.length = 0 then 0 else entropies.sum / (entropies.length : ℝ)
  let mx : ℝ := if entropies.length = 0 then 0 else entropies.foldl max 0
  let high := (entropies.filter (fun e => decide (4.5 < e))).length
  { totalStrings := strings.length
    avgEntropy := round3 avg
    maxEntropy := round3 mx
    highEntropyStrings := high }

end FeatureExtractor

/-! ### Network literal scan and fallback regex matchers -/

/-- Attempt of `/\b\d{1,3}(?:\.\d{1,3}){3}\b/` at a left word boundary:
greedy digit groups (more than three digits cannot backtrack into a match)
and a trailing word boundary. -/
def tryQuad (cs : List Char) : Option ℕ :=
  let g1 := cs.takeWhile Char.isDigit
  if g1.length = 0 ∨ g1.length > 3 then none
  else
    match cs.drop g1.length with
    | '.' :: r1 =>
      let g2 := r1.takeWhile Char.isDigit
      if g2.length = 0 ∨ g2.length > 3 then none
      else
        match r1.drop g2.length with
        | '.' :: r2 =>
          let g3 := r2.takeWhile Char.isDigit
          if g3.length = 0 ∨ g3.length > 3 then none
          else
            match r2.drop g3.length with
            | '.' :: r3 =>
              let g4 := r3.takeWhile Char.isDigit
              if g4.length = 0 ∨ g4.length > 3 then none
              else
                let ok :=
                  match r3.drop g4.length with
                  | c :: _ => !wordChar c
                  | [] => true
                if ok then
                  some (g1.length + 1 + g2.length + 1 + g3.length + 1 + g4.length)
                else none
            | _ => none
        | _ => none
    | _ => none

def ipv4ScanF : ℕ → List Char → Bool → List String
  | 0, _, _ => []
  | _ + 1, [], _ => []
  | fuel + 1, c :: cs, prevW =>
    if !prevW && c.isDigit then
      match tryQuad (c :: cs) with
      | some n =>
        String.mk ((c :: cs).take n) :: ipv4ScanF fuel (List.drop (n - 1) cs) true
      | none => ipv4ScanF fuel cs (wordChar c)
    else
      ipv4ScanF fuel cs (wordChar c)

def ipv4ScanAux (cs : List Char) (prevW : Bool) : List String :=
  ipv4ScanF cs.length cs prevW

/-- Literal IPv4 candidates of the code, deduplicated (`new Set`). -/
def findIPs (code : String) : List String :=
  dedup (ipv4ScanAux code.data false)

/-- Match of `name\s*\(` (named call pattern of the fallback regexes; the
`\b` on the left is handled by `scanCountB`). -/
def matchCallPat (nm : String) (cs : List Char) : Option ℕ :=
  if isPrefixList nm.data cs then
    let r := cs.drop nm.length
    let ws := r.takeWhile Char.isWhitespace
    match r.drop ws.length with
    | '(' :: _ => some (nm.length + ws.length + 1)
    | _ => none
  else none

/-- Match of `/new\s+Function\s*\(/`. -/
def matchNewFunction (cs : List Char) : Option ℕ :=
  if isPrefixList "new".data cs then
    let r1 := cs.drop 3
    let ws := r1.takeWhile Char.isWhitespace
    if ws.length = 0 then none
    else if isPrefixList "Function".data (r1.drop ws.length) then
      let r3 := (r1.drop ws.length).drop 8
      let ws2 := r3.takeWhile Char.isWhitespace
      match r3.drop ws2.length with
      | '(' :: _ => some (3 + ws.length + 8 + ws2.length + 1)
      | _ => none
    else none
  else none

/-- Match of a word alternation with a trailing `\b` (first alternative
preferred). -/
def matchWordAlt (words : List String) (cs : List Char) : Option ℕ :=
  words.findSome? (fun w =>
    if isPrefixList w.data cs then
      match cs.drop w.length with
      | c :: _ => if wordChar c then none else some w.length
      | [] => some w.length
    else none)

def isQuoteChar (c : Char) : Bool :=
  c = '"' || c = squote || c = backtickChar

/-- Match of the fallback string-literal pattern `(["'`])[^\1]*?\1` (the
class `[^\1]` excludes the character U+0001, not the quote; the lazy body
therefore runs to the next occurrence of the opening quote). -/
def matchQuoted (cs : List Char) : Option ℕ :=
  match cs with
  | q :: rest =>
    if isQuoteChar q then
      let inner := rest.takeWhile (fun c => c ≠ q && c ≠ Char.ofNat 1)
      match rest.drop inner.length with
      | c :: _ => if c = q then some (inner.length + 2) else none
      | [] => none
    else none
  | [] => none

/-- Match of the fallback dynamic-property pattern `\[["'`][^\]]+["'`]\]`. -/
def matchDynProp (cs : List Char) : Option ℕ :=
  match cs with
  | '[' :: q :: rest =>
    if isQuoteChar q then
      let span := rest.takeWhile (fun c => c ≠ ']')
      match rest.drop span.length with
      | ']' :: _ =>
        match span.reverse with
        | q2 :: before =>
          if isQuoteChar q2 ∧ 1 ≤ before.length then some (2 + span.length + 1)
          else none
        | [] => none
      | _ => none
    else none
  | _ => none

/-- Match of the fallback URL counter `/https?:\/\//g` (case-sensitive). -/
def matchHttpScheme (cs : List Char) : Option ℕ :=
  if isPrefixList "https://".data cs then some 8
  else if isPrefixList "http://".data cs then some 7
  else none

namespace FeatureExtractor

/-- Source function `FeatureExtractor.getFallbackFeatures`: the regex
approximation used when every parse strategy failed.  Fields absent from
the source's fallback object (`networkMatches`, the nested
`longIdentifiers`, `stringConcatenation`, `postMessage`, `localStorage`)
are zero/empty here and are read by no consumer; the shape claims account
for them against the literal field lists. -/
def fallbackFeaturesOf (code url : String) : Features :=
  { url := url
    codeSize := code.length
    dangerousFunctions :=
      { eval := scanCountB (matchCallPat "eval") code.data false
        Function := scanCount matchNewFunction code.data
        setTimeout_string := 0
        setInterval_string := 0
        document_write := countOccurs "document.write" code.data
        atob := scanCountB (matchCallPat "atob") code.data false
        btoa := scanCountB (matchCallPat "btoa") code.data false
        unescape := scanCountB (matchCallPat "unescape") code.data false
        decodeURIComponent := scanCountB (matchCallPat "decodeURIComponent") code.data false
        innerHTML := countOccurs ".innerHTML" code.data
        outerHTML := countOccurs ".outerHTML" code.data }
    urlAnalysis :=
      { totalUrls := scanCount matchHttpScheme code.data
        uniqueDomains := 0
        externalUrls := scanCount matchHttpScheme code.data
        externalPercentage := 100
        domains := [] }
    obfuscation :=
      { hexStrings := countHexEscapes code.data
        unicodeEscapes := countUnicodeEscapes code.data
        base64Strings := b64scanRaw code.data 0
        longIdentifiers := 0
        stringConcatenation := 0
        charCodeUsage := countAltOccurs "charCodeAt" "fromCharCode" code.data
        score := 0
        isObfuscated := false }
    complexity :=
      { loops := scanCountB (matchWordAlt ["for", "while", "do"]) code.data false
        conditionals := scanCountB (matchWordAlt ["if", "else", "switch", "case"]) code.data false
        functions := scanCountB (matchWordAlt ["function"]) code.data false
        maxNestingDepth := 0
        cyclomaticComplexity := 0 }
    stringAnalysis :=
      { totalStrings := scanCount matchQuoted code.data
        avgEntropy := 0
        maxEntropy := 0
        highEntropyStrings := 0 }
    suspiciousPatterns :=
      { dynamicPropertyAccess := scanCount matchDynProp code.data
        importScripts := countOccurs "importScripts" code.data
        webSocket := countOccurs "WebSocket" code.data
        xhr := countOccurs "XMLHttpRequest" code.data
        fetch := scanCountB (matchCallPat "fetch") code.data false
        postMessage := 0
        localStorage := 0
        cookie := countOccurs "document.cookie" code.data }
    networkMatches := ⟨[], []⟩ }

/-- Environment of one `extractFeatures` call: the parser outcome (acorn
after the three strategies; `none` when all failed), whether the protected
block raises a runtime error (the `catch` branch), and the `IpDB`
blacklist oracle (`none` = not found, `some s` = found with display text
`s`). -/
structure ExtractEnv where
  parseResult : Option Ast
  lastParseError : String
  extractionThrow : Bool
  ipLookup : String → Option String

/-- Successful-parse feature construction of `extractFeatures` (the
`timestamp`/`extractionTime` bookkeeping fields carry no analysis signal
and are accounted for by the shape claims). -/
noncomputable def extractFromAst (env : ExtractEnv) (code url : String)
    (ast : Ast) : Features :=
  { url := url
    codeSize := code.length
    dangerousFunctions := countDangerousFunctions ast
    urlAnalysis := analyzeURLs code url
    obfuscation := detectObfuscation code ast
    complexity := calculateComplexity ast
    stringAnalysis := analyzeStrings ast
    suspiciousPatterns := detectSuspiciousPatterns ast
    networkMatches :=
      let ips := findIPs code
      { ips := ips, blacklistedIps := ips.filterMap env.ipLookup } }

structure ExtractResult where
  success : Bool
  features : Features

/-- Source function `FeatureExtractor.extractFeatures`: all three return
paths — fallback after total parse failure, the catch branch, and the
normal path — set `success: true`. -/
noncomputable def extractFeatures (env : ExtractEnv) (code url : String) :
    ExtractResult :=
  match env.parseResult with
  | none => { success := true, features := fallbackFeaturesOf code url }
  | some ast =>
    if env.extractionThrow then
      { success := true, features := fallbackFeaturesOf code url }
    else
      { success := true, features := extractFromAst env code url ast }

end FeatureExtractor

/-! ## Orchestrator (`analyzeScript` of the background script) -/

/-- Environment of one `analyzeScript` call: the digest primitive
(`HashUtils.calculateSHA256`; `none` models its null/error result), the
reputation store, and the extractor environment. -/
structure AnalyzeEnv where
  sha256Of : String → Option String
  hashEnv : HashDB.HashEnv
  hashSt : HashDB.HashState
  extract : FeatureExtractor.ExtractEnv

structure AnalyzeOut where
  sha256 : Option String
  hashFound : Bool
  score : Option RiskScore
  status : String

/-- Source function `analyzeScript`: digest, reputation lookup, feature
extraction, scoring, action-to-status mapping. -/
noncomputable def analyzeScript (env : AnalyzeEnv) (content url : String) :
    AnalyzeOut :=
  match env.sha256Of content with
  | none => { sha256 := none, hashFound := false, score := none, status := "error" }
  | some h =>
    let hres := (HashDB.checkHash env.hashEnv env.hashSt h).1
    let fres := FeatureExtractor.extractFeatures env.extract content url
    if fres.success = false then
      { sha256 := some h, hashFound := hres.found, score := none, status := "error" }
    else
      let sc := Scorer.calculateScore fres.features
        (some { found := hres.found, source := hres.source })
      { sha256 := some h
        hashFound := hres.found
        score := some sc
        status :=
          if sc.action = "block" then "malware"
          else if sc.action = "suspect" then "suspect"
          else "clean" }

/-! ## Claims about extraction resilience and the orchestrator -/

lemma extractFeatures_success (e : FeatureExtractor.ExtractEnv) (c u : String) :
    (FeatureExtractor.extractFeatures e c u).success = true := by
  unfold FeatureExtractor.extractFeatures
  rcases hpr : e.parseResult with _ | a
  · rfl
  · by_cases ht : e.extractionThrow <;> simp [ht]

/-- C10: `extractFeatures` reports success on every path (parse failure and
internal extraction errors both fall back rather than fail), so
`analyzeScript`'s branch returning status `error` with no score on a failed
extraction is unreachable: whenever digest computation succeeds, a
`RiskScore` is produced and the status is not `error`. -/
theorem claim_C10_extraction_never_fails (xenv : FeatureExtractor.ExtractEnv)
    (code url : String) (aenv : AnalyzeEnv) (content url2 : String) (h : String)
    (hsha : aenv.sha256Of content = some h) :
    (FeatureExtractor.extractFeatures xenv code url).success = true ∧
    (analyzeScript aenv content url2).score.isSome = true ∧
    (analyzeScript aenv content url2).status ≠ "error" := by
  refine ⟨extractFeatures_success xenv code url, ?_, ?_⟩
  · unfold analyzeScript
    rw [hsha]
    simp [extractFeatures_success]
  · unfold analyzeScript
    rw [hsha]
    simp only [extractFeatures_success, Bool.true_eq_false, if_false]
    split
    · simp
    · split <;> simp

def c10env : AnalyzeEnv :=
  { sha256Of := fun _ => some abDigest
    hashEnv := noPkgEnv
    hashSt := emptyHashState
    extract :=
      { parseResult := none
        lastParseError := "SyntaxError"
        extractionThrow := false
        ipLookup := fun _ => none } }

/-- Witness for C10 at a concrete environment whose parser fails. -/
theorem claim_C10_extraction_never_fails_witness :
    c10env.sha256Of "x" = some abDigest ∧
    (FeatureExtractor.extractFeatures c10env.extract "x" "http://example.com/a.js").success = true ∧
    (analyzeScript c10env "x" "http://example.com/a.js").status ≠ "error" := by
  have h := claim_C10_extraction_never_fails c10env.extract "x"
    "http://example.com/a.js" c10env "x" "http://example.com/a.js" abDigest rfl
  exact ⟨rfl, h.1, h.2.2⟩

/-! ## Claims about the fallback feature-vector shape

The two object shapes, transcribed key by key from the object literals of
`extractFeatures` (success path) and `getFallbackFeatures`: top-level keys
and the nested keys of each category object. -/

def successTopFields : List String :=
  ["url", "codeSize", "timestamp", "dangerousFunctions", "urlAnalysis",
   "obfuscation", "complexity", "stringAnalysis", "suspiciousPatterns",
   "networkMatches", "extractionTime"]

def successDangerFields : List String :=
  ["eval", "Function", "setTimeout_string", "setInterval_string",
   "document_write", "atob", "btoa", "unescape", "decodeURIComponent",
   "innerHTML", "outerHTML", "total"]

def successUrlFields : List String :=
  ["totalUrls", "uniqueDomains", "externalUrls", "externalPercentage", "domains"]

def successObfFields : List String :=
  ["hexStrings", "unicodeEscapes", "base64Strings", "longIdentifiers",
   "stringConcatenation", "charCodeUsage", "score", "isObfuscated"]

def successComplexityFields : List String :=
  ["loops", "conditionals", "functions", "maxNestingDepth", "cyclomaticComplexity"]

def successStringFields : List String :=
  ["totalStrings", "avgEntropy", "maxEntropy", "highEntropyStrings",
   "avgStringLength"]

def successPatternFields : List String :=
  ["dynamicPropertyAccess", "importScripts", "webSocket", "xhr", "fetch",
   "postMessage", "localStorage", "cookie"]

def successNetworkFields : List String :=
  ["ips", "blacklistedIps"]

def fallbackTopFields : List String :=
  ["url", "codeSize", "timestamp", "parseError", "dangerousFunctions",
   "urlAnalysis", "obfuscation", "complexity", "stringAnalysis",
   "suspiciousPatterns"]

def fallbackDangerFields : List String :=
  ["eval", "Function", "setTimeout_string", "setInterval_string",
   "document_write", "atob", "btoa", "unescape", "decodeURIComponent",
   "innerHTML", "outerHTML"]

def fallbackUrlFields : List String :=
  ["totalUrls", "externalUrls", "externalPercentage", "uniqueDomains", "domains"]

def fallbackObfFields : List String :=
  ["hexStrings", "unicodeEscapes", "base64Strings", "charCodeUsage",
   "isObfuscated", "score"]

def fallbackComplexityFields : List String :=
  ["loops", "conditionals", "functions", "maxNestingDepth", "cyclomaticComplexity"]

def fallbackStringFields : List String :=
  ["totalStrings", "avgEntropy", "maxEntropy", "highEntropyStrings"]

def fallbackPatternFields : List String :=
  ["dynamicPropertyAccess", "importScripts", "webSocket", "xhr", "fetch",
   "cookie"]

/-- C3 counterexample: the fallback vector does not have the same set of
fields as the successful-parse vector: `networkMatches` and
`extractionTime` are missing, `parseError` is added, and the nested
`total`, `longIdentifiers`, `stringConcatenation`, `avgStringLength`,
`postMessage` and `localStorage` keys are missing. -/
theorem claim_C3_counterexample :
    "networkMatches" ∈ successTopFields ∧ "networkMatches" ∉ fallbackTopFields ∧
    "extractionTime" ∈ successTopFields ∧ "extractionTime" ∉ fallbackTopFields ∧
    "parseError" ∈ fallbackTopFields ∧ "parseError" ∉ successTopFields ∧
    "total" ∈ successDangerFields ∧ "total" ∉ fallbackDangerFields ∧
    "longIdentifiers" ∈ successObfFields ∧ "longIdentifiers" ∉ fallbackObfFields ∧
    "avgStringLength" ∈ successStringFields ∧ "avgStringLength" ∉ fallbackStringFields ∧
    "postMessage" ∈ successPatternFields ∧ "postMessage" ∉ fallbackPatternFields := by
  decide

/-- C3 amended: the exact shape relation between the two paths.  The
fallback vector keeps the same six nested categories, but as a set of
fields it differs from the success path exactly by: dropping
`networkMatches` and `extractionTime`, adding `parseError`, and dropping
the nested `total` (dangerousFunctions), `longIdentifiers` and
`stringConcatenation` (obfuscation), `avgStringLength` (stringAnalysis),
`postMessage` and `localStorage` (suspiciousPatterns); `urlAnalysis` and
`complexity` keep the same fields. -/
theorem claim_C3_amended_fallback_shape :
    fallbackTopFields.Perm
      ("parseError" ::
        successTopFields.filter
          (fun x => !(x == "networkMatches" || x == "extractionTime"))) ∧
    fallbackDangerFields =
      successDangerFields.filter (fun x => !(x == "total")) ∧
    fallbackUrlFields.Perm successUrlFields ∧
    fallbackObfFields.Perm
      (successObfFields.filter
        (fun x => !(x == "longIdentifiers" || x == "stringConcatenation"))) ∧
    fallbackComplexityFields = successComplexityFields ∧
    fallbackStringFields =
      successStringFields.filter (fun x => !(x == "avgStringLength")) ∧
    fallbackPatternFields =
      successPatternFields.filter
        (fun x => !(x == "postMessage" || x == "localStorage")) := by
  refine ⟨?_, by decide, ?_, ?_, by decide, by decide, by decide⟩ <;> decide

/-! ## Claims about the documented scenario (`C9`) -/

def c9b64 : String := "ZnVuY3Rpb24oKXt9"

/-- The scenario content `eval(atob(...))` with the base64 payload in single
quotes. -/
def c9content : String :=
  "eval(atob(" ++ String.mk [squote] ++ c9b64 ++ String.mk [squote] ++ "));"

/-- Modelled from the spec: the Source Parser contract (spec section 4.2)
produces a syntax tree for well-formed input; the external parser is not
part of this repository, and this is the standard (ESTree-shaped) parse of
the scenario content: one expression statement calling `eval` on
`atob(<base64 literal>)`. -/
def c9ast : Ast :=
  .program [.exprStmt (.callE (.ident "eval")
    [.callE (.ident "atob") [.lit (some c9b64)]])]

/-- An untrusted, unknown-TLD origin. -/
def c9url : String := "http://test-site.xyz/payload.js"

def c9xenv : FeatureExtractor.ExtractEnv :=
  { parseResult := some c9ast
    lastParseError := ""
    extractionThrow := false
    ipLookup := fun _ => none }

noncomputable def c9features : Features :=
  (FeatureExtractor.extractFeatures c9xenv c9content c9url).features

/-- The scenario score: no reputation match, untrusted origin. -/
noncomputable def c9score : RiskScore :=
  Scorer.calculateScore c9features (some { found := false, source := "none" })

lemma freqList_c9 : freqList c9b64 =
    [('Z', 1), ('n', 1), ('V', 1), ('u', 1), ('Y', 1), ('3', 1), ('R', 1),
     ('p', 1), ('b', 1), ('2', 1), ('4', 1), ('o', 1), ('K', 1), ('X', 1),
     ('t', 1), ('9', 1)] := by decide

lemma logb2_sixteenth : Real.logb 2 ((1 : ℝ) / 16) = -4 := by
  have h : ((1 : ℝ) / 16) = ((16 : ℝ))⁻¹ := by norm_num
  rw [h, Real.logb_inv]
  have h16 : (16 : ℝ) = 2 ^ (4 : ℕ) := by norm_num
  rw [h16, Real.logb_pow, Real.logb_self_eq_one (by norm_num)]
  norm_num

/-- The single scenario string has sixteen pairwise-distinct characters, so
its Shannon entropy is exactly `log2 16 = 4` bits per symbol. -/
lemma calculateEntropy_c9 : calculateEntropy c9b64 = 4 := by
  unfold calculateEntropy
  rw [if_neg (by decide), freqList_c9]
  have hlen : c9b64.length = 16 := by decide
  rw [hlen]
  simp only [List.map_cons, List.map_nil, List.sum_cons, List.sum_nil]
  push_cast
  rw [logb2_sixteenth]
  norm_num

lemma c9_collect : FeatureExtractor.collectStrings c9ast = [c9b64] := by decide

lemma c9_stringAnalysis :
    FeatureExtractor.analyzeStrings c9ast = ⟨1, 4, 4, 0⟩ := by
  have hd : (decide ((4.5 : ℝ) < 4)) = false := decide_eq_false (by norm_num)
  have hf : ⌊(4 : ℝ) * 1000 + 1 / 2⌋ = 4000 := by
    rw [Int.floor_eq_iff]
    constructor <;> norm_num
  unfold FeatureExtractor.analyzeStrings round3
  rw [c9_collect]
  simp [calculateEntropy_c9, hd, hf]
  rw [show ((4 : ℝ) * 1000 + 2⁻¹) = 4 * 1000 + 1 / 2 by norm_num, hf]
  norm_num

lemma c9f_url : c9features.url = c9url := rfl

lemma c9f_danger : c9features.dangerousFunctions =
    ⟨1, 0, 0, 0, 0, 1, 0, 0, 0, 0, 0⟩ := by decide

lemma c9f_urlAnalysis : c9features.urlAnalysis = ⟨0, 0, 0, 0, []⟩ := by decide

lemma c9f_obfuscation : c9features.obfuscation =
    ⟨0, 0, 0, 0, 0, 0, 0, false⟩ := by decide

lemma c9f_complexity : c9features.complexity = ⟨0, 0, 0, 4, 1⟩ := by decide

lemma c9f_patterns : c9features.suspiciousPatterns =
    ⟨0, 0, 0, 0, 0, 0, 0, 0⟩ := by decide

lemma c9f_network : c9features.networkMatches = ⟨[], []⟩ := by decide

lemma c9f_strings : c9features.stringAnalysis = ⟨1, 4, 4, 0⟩ := by
  show (FeatureExtractor.extractFeatures c9xenv c9content c9url).features.stringAnalysis = _
  unfold FeatureExtractor.extractFeatures c9xenv
  simp only [FeatureExtractor.extractFromAst, Bool.false_eq_true, if_false]
  exact c9_stringAnalysis

lemma c9_cat_danger :
    Scorer.scoreDangerousFunctions ⟨1, 0, 0, 0, 0, 1, 0, 0, 0, 0, 0⟩ = 13 := by
  decide

lemma c9_cat_obf : Scorer.scoreObfuscation ⟨0, 0, 0, 0, 0, 0, 0, false⟩ = 0 := by
  norm_num [Scorer.scoreObfuscation]

lemma c9_cat_urls : Scorer.scoreURLs ⟨0, 0, 0, 0, []⟩ = 0 := by decide

lemma c9_cat_entropy : Scorer.scoreEntropy ⟨1, 4, 4, 0⟩ = 3 := by
  norm_num [Scorer.scoreEntropy]

lemma c9_cat_patterns :
    Scorer.scoreSuspiciousPatterns ⟨0, 0, 0, 0, 0, 0, 0, 0⟩ = 0 := by decide

lemma c9_cat_complexity : Scorer.scoreComplexity ⟨0, 0, 0, 4, 1⟩ = 0 := by decide

lemma c9_cat_domains : Scorer.scoreDomains ⟨0, 0, 0, 0, []⟩ = 0 := by decide

lemma c9_trust : Scorer.isTrustedSource c9url = false := by decide

lemma c9_known : Scorer.isKnownDomain c9url = false := by decide

/-- Full evaluation of the scenario score. -/
lemma c9score_fields :
    c9score.breakdown.dangerousFunctions = 13 ∧
    c9score.breakdown.obfuscation = 0 ∧
    c9score.breakdown.entropy = 3 ∧
    c9score.breakdown.unknownDomain = 10 ∧
    c9score.score = 26 ∧
    c9score.action = "allow" ∧
    c9score.riskLevel = "low" := by
  unfold c9score Scorer.calculateScore
  rw [c9f_url, c9f_danger, c9f_urlAnalysis, c9f_obfuscation, c9f_complexity,
    c9f_strings, c9f_patterns, c9f_network, c9_trust, c9_known,
    c9_cat_danger, c9_cat_obf, c9_cat_urls, c9_cat_entropy, c9_cat_patterns,
    c9_cat_complexity, c9_cat_domains]
  norm_num [Scorer.jsRound, Scorer.ipWeight]

/-- C9 counterexample: for the exact scenario content, untrusted origin and
no reputation match, the obfuscation contribution is zero (no escape
sequences, no base64-class run of length at least 20, no char-code usage)
and the action is `allow`, not `suspect` or `block`. -/
theorem claim_C9_counterexample :
    c9score.breakdown.obfuscation = 0 ∧
    c9score.action = "allow" ∧
    ¬(c9score.action = "suspect" ∨ c9score.action = "block") := by
  obtain ⟨-, h2, -, -, -, h6, -⟩ := c9score_fields
  refine ⟨h2, h6, ?_⟩
  rw [h6]
  decide

/-- C9 amended: analyzing the scenario content with no reputation match and
an untrusted origin yields a nonzero dangerous-call contribution (13 points:
one `eval`, one `atob`), a zero obfuscation contribution, an entropy
contribution of 3 and the unknown-domain penalty of 10, for a total score of
26 and action `allow` under the documented 40/70 thresholds. -/
theorem claim_C9_amended_scenario :
    c9score.breakdown.dangerousFunctions = 13 ∧
    c9score.breakdown.dangerousFunctions ≠ 0 ∧
    c9score.breakdown.obfuscation = 0 ∧
    c9score.breakdown.entropy = 3 ∧
    c9score.breakdown.unknownDomain = 10 ∧
    c9score.score = 26 ∧
    c9score.action = "allow" := by
  obtain ⟨h1, h2, h3, h4, h5, h6, -⟩ := c9score_fields
  exact ⟨h1, by rw [h1]; decide, h2, h3, h4, h5, h6⟩
